import Mathlib

/-!
# Drone refill station controller (`src/main.cpp`)

A shallow embedding of the single-station dispensing controller: the `Unit`
record, the colour mapper, the relay helpers, the phase helpers
(`startFillingMix`, `stopFillingMix`, `startPumpingDrone`, `stopPumpingDrone`),
`setupUnitIO` and one pass of `loop()`.

Modelling conventions.

* `int` fields are `Int` with exact arithmetic (signed overflow is undefined
  behaviour in C++ and no reachable state comes near the 32-bit range).
* `unsigned long` values (`millis()`, `pumpStopTime`, `waitStartTime`) are `Nat`
  with every operation reduced modulo `2 ^ 32`, as on the ESP32 target.
* `float` values are `Rat`; the `(int)` cast truncates toward zero.
* Digital levels are `Bool` with `HIGH = true`, `LOW = false`.
* The GPIO levels last written to the four relay pins and the duty values last
  written to the three LED channels are carried in the record next to the
  fields of the source `struct Unit`; pin numbers are fixed configuration and
  are not carried.
* One pass of `loop()` receives its readings in an `Inputs` record; every
  `millis()` call of the pass observes the same value `now`.
* The LCD itself is not modelled: with `NUM_UNITS = 1` row 2 always shows the
  cached `statusLine2`.
-/

namespace Vikhr

/-! ## Constants and Arduino helpers -/

/-- Level `HIGH` of a digital pin. -/
def HIGH : Bool := true

/-- Level `LOW` of a digital pin. -/
def LOW : Bool := false

/-- Volume of the mix tank in liters (`#define MIX_TANK_CAPACITY 20`). -/
def MIX_TANK_CAPACITY : Int := 20

/-- Calibration: milliseconds per liter (`#define MS_PER_LITER 300`). -/
def MS_PER_LITER : Int := 300

/-- Number of values of a 32-bit `unsigned long`. -/
def U32 : Nat := 2 ^ 32

/-- Conversion `(unsigned long) x` of an `int`: reduction modulo `2 ^ 32`. -/
def toU32 (x : Int) : Nat := (x % (U32 : Int)).toNat

/-- Conversion `(int) x` of an `unsigned long`: two's complement reading. -/
def toInt32 (x : Nat) : Int :=
  if x % U32 < 2 ^ 31 then ((x % U32 : Nat) : Int) else ((x % U32 : Nat) : Int) - (U32 : Int)

/-- Unsigned 32-bit addition. -/
def addU32 (a b : Nat) : Nat := (a + b) % U32

/-- Unsigned 32-bit subtraction. -/
def subU32 (a b : Nat) : Nat := (a % U32 + (U32 - b % U32)) % U32

/-- Modelled from the spec: the Arduino core macro `constrain(amt, low, high)`,
`amt < low ? low : (amt > high ? high : amt)`. -/
def constrain {α : Type} [LT α] [DecidableRel (fun (a b : α) => a < b)] (amt low high : α) : α :=
  if amt < low then low else if amt > high then high else amt

/-- Modelled from the spec: the Arduino core function `map`, the linear map
`(x - in_min) * (out_max - out_min) / (in_max - in_min) + out_min` in integer
arithmetic (C division, truncating toward zero). -/
def map (x in_min in_max out_min out_max : Int) : Int :=
  Int.tdiv ((x - in_min) * (out_max - out_min)) (in_max - in_min) + out_min

/-- The cast `(int) x` of a `float`: truncation toward zero. -/
def truncToInt (x : Rat) : Int := if 0 ≤ x then ⌊x⌋ else ⌈x⌉

/-! ## The station record -/

/-- One station: the mutable fields of `struct Unit` followed by the outputs it
drives (relay pin levels and LED duty values). -/
structure Unit where
  /-- Liters to deliver into the drone. -/
  targetLiters : Int
  /-- Value shown in the countdown. -/
  currentLiters : Int
  /-- Last target value shown. -/
  lastDisplayedLiters : Int
  /-- Phase B (pumping into the drone) is active. -/
  pumpRunning : Bool
  /-- The station may start a new cycle. -/
  readyToStart : Bool
  /-- Dwell before the station becomes ready again. -/
  waitBeforeReset : Bool
  /-- Start of the dwell, `unsigned long`. -/
  waitStartTime : Nat
  /-- Deadline of the current phase, `unsigned long`. -/
  pumpStopTime : Nat
  /-- Forces a full redraw. -/
  needsDisplayUpdate : Bool
  /-- Phase A (filling the mix tank) is active. -/
  fillingMix : Bool
  /-- Liters already pumped into the drone in this cycle. -/
  deliveredLiters : Int
  /-- Size of the current batch. -/
  batchLiters : Int
  /-- Cached text of LCD row 2. -/
  statusLine2 : String
  /-- Cached text of LCD row 3. -/
  statusLine3 : String
  /-- Last progress value given to the LED. -/
  lastProgress01 : Rat
  /-- Level on `relayPin` (transfer pump, active LOW). -/
  relayLevel : Bool
  /-- Level on `pumpMixPin` (mix pump, active LOW). -/
  pumpMixLevel : Bool
  /-- Level on `valveAPin` (active LOW). -/
  valveALevel : Bool
  /-- Level on `valveBPin` (active LOW). -/
  valveBLevel : Bool
  /-- Duty last written to the red channel. -/
  ledR : Int
  /-- Duty last written to the green channel. -/
  ledG : Int
  /-- Duty last written to the blue channel. -/
  ledB : Int
  deriving DecidableEq, Repr

/-- The readings one pass of `loop()` takes from the outside world. -/
structure Inputs where
  /-- Value of `millis()` during the pass, `unsigned long`. -/
  now : Nat
  /-- Value of `analogRead(POT_PIN)`. -/
  potValue : Int
  /-- First read of `START_BTN_PIN`. -/
  startBtn : Bool
  /-- Second read of `START_BTN_PIN`, after the 50 ms settle delay. -/
  startBtnConfirm : Bool
  /-- Read of `mixMoisturePin` (HIGH = liquid). -/
  mixMoisture : Bool
  /-- Read of `moisturePin` (HIGH = liquid). -/
  moisture : Bool
  /-- Static `lastState` of `handleUnitSwitch`. -/
  switchLastState : Bool
  /-- Read of `SWITCH_BTN_PIN`. -/
  switchBtn : Bool
  deriving DecidableEq, Repr

/-! ## Display cache -/

/-- `updateStatusLine`: stores the text of row 2 or row 3 in the cache. -/
def updateStatusLine (u : Unit) (row : Nat) (text : String) : Unit :=
  let u := if row = 2 then { u with statusLine2 := text } else u
  if row = 3 then { u with statusLine3 := text } else u

/-- `refreshDisplayForUnit`: redraws the screen and clears the dirty flag. -/
def refreshDisplayForUnit (u : Unit) : Unit :=
  { u with needsDisplayUpdate := false }

/-! ## RGB indicator -/

/-- `ledWriteRGB` with `COMMON_ANODE = 0`: writes the constrained duties. -/
def ledWriteRGB (u : Unit) (r g b : Int) : Unit :=
  { u with ledR := constrain r 0 255, ledG := constrain g 0 255, ledB := constrain b 0 255 }

/-- `ledOff`. -/
def ledOff (u : Unit) : Unit := ledWriteRGB u 0 0 0

/-- `ledRed`. -/
def ledRed (u : Unit) : Unit := ledWriteRGB u 255 0 0

/-- `lerp(a, b, t) = a + (b - a) * t`. -/
def lerp (a b t : Rat) : Rat := a + (b - a) * t

/-- `colorFromProgress`: the triple `(r, g, b)` written through the reference
parameters. The literals `0.3333f`, `0.6666f`, `0.3334f` are read as the exact
decimals. -/
def colorFromProgress (p : Rat) : Int × Int × Int :=
  let p := constrain p 0 1
  if p < 3333 / 10000 then
    let t := p / (3333 / 10000)
    (0, truncToInt (lerp 0 255 t), truncToInt (lerp 255 0 t))
  else if p < 6666 / 10000 then
    let t := (p - 3333 / 10000) / (3333 / 10000)
    (truncToInt (lerp 0 255 t), truncToInt (lerp 255 128 t), 0)
  else
    let t := (p - 6666 / 10000) / (3334 / 10000)
    (255, truncToInt (lerp 128 0 t), 0)

/-- `ledUpdateGradient`. -/
def ledUpdateGradient (u : Unit) (progress01 : Rat) : Unit :=
  let u := { u with lastProgress01 := constrain progress01 0 1 }
  let c := colorFromProgress u.lastProgress01
  ledWriteRGB u c.1 c.2.1 c.2.2

/-! ## Buttons and relays -/

/-- `handleUnitSwitch`: on a falling edge the (only) station is redrawn. -/
def handleUnitSwitch (u : Unit) (lastState currentState : Bool) : Unit :=
  if lastState = HIGH ∧ currentState = LOW then refreshDisplayForUnit u else u

/-- `pumpMixOn`. -/
def pumpMixOn (u : Unit) : Unit := { u with pumpMixLevel := LOW }

/-- `pumpMixOff`. -/
def pumpMixOff (u : Unit) : Unit := { u with pumpMixLevel := HIGH }

/-- `pumpDroneOn`. -/
def pumpDroneOn (u : Unit) : Unit := { u with relayLevel := LOW }

/-- `pumpDroneOff`. -/
def pumpDroneOff (u : Unit) : Unit := { u with relayLevel := HIGH }

/-- `valvesOpen`. -/
def valvesOpen (u : Unit) : Unit := { u with valveALevel := LOW, valveBLevel := LOW }

/-- `valvesClose`. -/
def valvesClose (u : Unit) : Unit := { u with valveALevel := HIGH, valveBLevel := HIGH }

/-! ## Phase helpers -/

/-- Lines 192-195 and 214-217: at the start of a phase the indicator shows the
progress `deliveredLiters / targetLiters`, unless the target is not positive. -/
def showProgress (u : Unit) : Unit :=
  if u.targetLiters > 0 then
    let p := (u.deliveredLiters : Rat) / (u.targetLiters : Rat)
    ledUpdateGradient u p
  else u

/-- `startFillingMix`, called at time `now`. -/
def startFillingMix (u : Unit) (now : Nat) : Unit :=
  let u := { u with fillingMix := true }
  let u := { u with pumpRunning := false }
  let u := { u with batchLiters := min MIX_TANK_CAPACITY (u.targetLiters - u.deliveredLiters) }
  if u.batchLiters ≤ 0 then
    let u := { u with waitBeforeReset := true }
    let u := { u with waitStartTime := now }
    updateStatusLine u 2 "ready again"
  else
    let u := valvesOpen u
    let u := pumpMixOn u
    let u := { u with pumpStopTime := addU32 now (toU32 (u.batchLiters * MS_PER_LITER)) }
    let u := updateStatusLine u 2 ("mix <- " ++ toString u.batchLiters)
    showProgress u

/-- `stopFillingMix`. -/
def stopFillingMix (u : Unit) : Unit :=
  let u := pumpMixOff u
  let u := valvesClose u
  { u with fillingMix := false }

/-- `startPumpingDrone`, called at time `now`. -/
def startPumpingDrone (u : Unit) (now : Nat) : Unit :=
  let u := { u with pumpRunning := true }
  let u := pumpDroneOn u
  let u := { u with pumpStopTime := addU32 now (toU32 (u.batchLiters * MS_PER_LITER)) }
  let u := updateStatusLine u 2 ("pump on <- " ++ toString u.batchLiters)
  showProgress u

/-- `stopPumpingDrone`. -/
def stopPumpingDrone (u : Unit) : Unit :=
  let u := pumpDroneOff u
  { u with pumpRunning := false }

/-- `setupUnitIO` applied to the static initialiser of `units[0]`. -/
def setupUnitIO : Unit :=
  let u : Unit :=
    { targetLiters := 0, currentLiters := 0, lastDisplayedLiters := -1,
      pumpRunning := false, readyToStart := true, waitBeforeReset := false,
      waitStartTime := 0, pumpStopTime := 0, needsDisplayUpdate := true,
      fillingMix := false, deliveredLiters := 0, batchLiters := 0,
      statusLine2 := "", statusLine3 := "", lastProgress01 := 0,
      relayLevel := LOW, pumpMixLevel := LOW, valveALevel := LOW, valveBLevel := LOW,
      ledR := 0, ledG := 0, ledB := 0 }
  let u := pumpDroneOff u
  let u := pumpMixOff u
  let u := valvesClose u
  let u := { u with pumpRunning := false, readyToStart := true, waitBeforeReset := false,
                    needsDisplayUpdate := true, lastDisplayedLiters := -1, pumpStopTime := 0,
                    targetLiters := 0, currentLiters := 0 }
  let u := { u with fillingMix := false, deliveredLiters := 0, batchLiters := 0 }
  let u := { u with statusLine2 := "", statusLine3 := "" }
  let u := ledOff u
  { u with lastProgress01 := 0 }

/-! ## One pass of `loop()` -/

/-- The liters-remaining expression of lines 332 and 348:
`max((int)((pumpStopTime - millis()) / MS_PER_LITER), 0)`. -/
def remainingLiters (pumpStopTime now : Nat) : Int :=
  max (toInt32 (subU32 pumpStopTime now / toU32 MS_PER_LITER)) 0

/-- Lines 298-303: station switch and forced redraw. -/
def displayStage (u : Unit) (i : Inputs) : Unit :=
  let u := handleUnitSwitch u i.switchLastState i.switchBtn
  if u.needsDisplayUpdate then refreshDisplayForUnit u else u

/-- Lines 305-315: while idle the target follows the potentiometer. -/
def idleStage (u : Unit) (i : Inputs) : Unit :=
  if !u.fillingMix ∧ !u.pumpRunning ∧ u.readyToStart then
    let u := { u with targetLiters := map i.potValue 0 4095 1 100 }
    if u.targetLiters ≠ u.lastDisplayedLiters ∨ u.needsDisplayUpdate then
      let u := { u with currentLiters := u.targetLiters }
      let u := { u with lastDisplayedLiters := u.targetLiters }
      { u with needsDisplayUpdate := false }
    else u
  else u

/-- Lines 317-327: start of a cycle on a confirmed button press. The settle delay
and the blocking wait for the release of the button change no field. -/
def startStage (u : Unit) (i : Inputs) : Unit :=
  if !u.fillingMix ∧ !u.pumpRunning ∧ u.readyToStart ∧ i.startBtn = LOW then
    if i.startBtnConfirm = LOW then
      let u := { u with readyToStart := false }
      let u := { u with deliveredLiters := 0 }
      let u := { u with needsDisplayUpdate := true }
      startFillingMix u i.now
    else u
  else u

/-- Lines 332-336: countdown of phase A, rewritten only when the value changes. -/
def fillShow (u : Unit) (i : Inputs) : Unit :=
  let remainingL := remainingLiters u.pumpStopTime i.now
  if remainingL ≠ u.currentLiters then
    let u := { u with currentLiters := remainingL }
    updateStatusLine u 2 ("mix <- " ++ toString u.currentLiters)
  else u

/-- Lines 329-343: phase A, filling the mix tank. -/
def fillStage (u : Unit) (i : Inputs) : Unit :=
  if u.fillingMix then
    let mixOverflow : Bool := i.mixMoisture = HIGH
    let u := fillShow u i
    if i.now ≥ u.pumpStopTime ∨ mixOverflow then
      let u := if mixOverflow then { u with batchLiters := MIX_TANK_CAPACITY } else u
      let u := stopFillingMix u
      startPumpingDrone u i.now
    else u
  else u

/-- Lines 354-360: progress colour of phase B, from the liters already pumped in
this batch. -/
def showPumped (u : Unit) (i : Inputs) : Unit :=
  let remainingL := remainingLiters u.pumpStopTime i.now
  if u.targetLiters > 0 then
    let pumpedThisBatch := u.batchLiters - remainingL
    let pumpedThisBatch := if pumpedThisBatch < 0 then 0 else pumpedThisBatch
    let progress01 := ((u.deliveredLiters + pumpedThisBatch : Int) : Rat) / (u.targetLiters : Rat)
    ledUpdateGradient u progress01
  else u

/-- Lines 348-360: countdown and progress colour of phase B. -/
def pumpShow (u : Unit) (i : Inputs) : Unit :=
  let remainingL := remainingLiters u.pumpStopTime i.now
  let u :=
    if remainingL ≠ u.currentLiters then
      let u := { u with currentLiters := remainingL }
      updateStatusLine u 2 ("pump on <- " ++ toString u.currentLiters)
    else u
  showPumped u i

/-- Lines 363-382: end of phase B, entered when the deadline has passed or the
drone sensor reads HIGH. -/
def pumpFinish (u : Unit) (i : Inputs) : Unit :=
  let droneOverflow : Bool := i.moisture = HIGH
  let u := stopPumpingDrone u
  if droneOverflow then
    let u := ledRed u
    let u := { u with deliveredLiters := u.targetLiters }
    let u := updateStatusLine u 2 "filled in "
    let u := { u with waitBeforeReset := true }
    { u with waitStartTime := i.now }
  else
    let u := { u with deliveredLiters := u.deliveredLiters + u.batchLiters }
    if u.deliveredLiters ≥ u.targetLiters then
      let u := { u with deliveredLiters := u.targetLiters }
      let u := updateStatusLine u 2 "pump off "
      let u := ledOff u
      let u := { u with waitBeforeReset := true }
      { u with waitStartTime := i.now }
    else
      startFillingMix u i.now

/-- Lines 345-384: phase B, pumping into the drone. -/
def pumpStage (u : Unit) (i : Inputs) : Unit :=
  if u.pumpRunning then
    let droneOverflow : Bool := i.moisture = HIGH
    let u := pumpShow u i
    if i.now ≥ u.pumpStopTime ∨ droneOverflow then pumpFinish u i else u
  else u

/-- Lines 386-397: dwell before a new start is allowed. -/
def cooldownStage (u : Unit) (i : Inputs) : Unit :=
  if u.waitBeforeReset then
    if subU32 i.now u.waitStartTime ≥ 1000 then
      let u := { u with readyToStart := true }
      let u := { u with waitBeforeReset := false }
      let u := { u with needsDisplayUpdate := true }
      let u := { u with fillingMix := false }
      let u := { u with pumpRunning := false }
      let u := updateStatusLine u 2 "ready again"
      ledOff u
    else u
  else u

/-- The part of a pass before the phase blocks (lines 298-327). -/
def preStage (u : Unit) (i : Inputs) : Unit :=
  startStage (idleStage (displayStage u i) i) i

/-- The phase blocks of a pass (lines 329-397). -/
def phaseStage (u : Unit) (i : Inputs) : Unit :=
  cooldownStage (pumpStage (fillStage u i) i) i

/-- The station is idle: no phase is active and a start is allowed (the test of
lines 306 and 318). -/
def Idle (u : Unit) : Prop :=
  u.fillingMix = false ∧ u.pumpRunning = false ∧ u.readyToStart = true

instance (u : Unit) : Decidable (Idle u) :=
  inferInstanceAs
    (Decidable (u.fillingMix = false ∧ u.pumpRunning = false ∧ u.readyToStart = true))

/-- One pass of `loop()`. -/
def loop (u : Unit) (i : Inputs) : Unit :=
  phaseStage (preStage u i) i

/-- The station after a sequence of passes of `loop()`. -/
def run (u : Unit) (is : List Inputs) : Unit := is.foldl loop u

/-! ## Conditions on the readings of a pass -/

/-- The potentiometer reading lies in the range of the 12-bit converter. -/
def PotInRange (i : Inputs) : Prop := 0 ≤ i.potValue ∧ i.potValue ≤ 4095

instance (i : Inputs) : Decidable (PotInRange i) :=
  inferInstanceAs (Decidable (0 ≤ i.potValue ∧ i.potValue ≤ 4095))

/-- The press of the start button is confirmed (both reads are LOW). -/
def Pressed (i : Inputs) : Prop := i.startBtn = LOW ∧ i.startBtnConfirm = LOW

instance (i : Inputs) : Decidable (Pressed i) :=
  inferInstanceAs (Decidable (i.startBtn = LOW ∧ i.startBtnConfirm = LOW))

/-- No overflow sensor is asserted during the pass. -/
def NoOverflow (i : Inputs) : Prop := i.mixMoisture = LOW ∧ i.moisture = LOW

instance (i : Inputs) : Decidable (NoOverflow i) :=
  inferInstanceAs (Decidable (i.mixMoisture = LOW ∧ i.moisture = LOW))

/-! ## Conditions on the station -/

/-- The phase flags are mutually exclusive and `readyToStart` excludes all three. -/
def PhaseOK (u : Unit) : Prop :=
  ¬ (u.fillingMix = true ∧ u.pumpRunning = true) ∧
  ¬ (u.fillingMix = true ∧ u.waitBeforeReset = true) ∧
  ¬ (u.pumpRunning = true ∧ u.waitBeforeReset = true) ∧
  (u.readyToStart = true →
    u.fillingMix = false ∧ u.pumpRunning = false ∧ u.waitBeforeReset = false)

/-- The liters counters are non-negative and, outside idle, the delivered volume
does not exceed the target. -/
def LitersOK (u : Unit) : Prop :=
  0 ≤ u.targetLiters ∧ 0 ≤ u.deliveredLiters ∧ 0 ≤ u.batchLiters ∧
  (u.readyToStart = false → u.deliveredLiters ≤ u.targetLiters)

/-- A cycle towards `T` liters is in progress: one of the two phases is active
and the batch is the one `startFillingMix` computed. -/
def InCycle (T : Int) (u : Unit) : Prop :=
  u.targetLiters = T ∧ u.readyToStart = false ∧ u.waitBeforeReset = false ∧
  0 ≤ u.deliveredLiters ∧ u.deliveredLiters < T ∧
  u.batchLiters = min MIX_TANK_CAPACITY (T - u.deliveredLiters) ∧
  u.fillingMix = !u.pumpRunning

/-- The cycle towards `T` liters has just entered cooldown at time `now`. -/
def CycleDone (T : Int) (now : Nat) (u : Unit) : Prop :=
  u.targetLiters = T ∧ u.readyToStart = false ∧ u.waitBeforeReset = true ∧
  u.deliveredLiters = T ∧ u.fillingMix = false ∧ u.pumpRunning = false ∧
  u.waitStartTime = now

/-- Entries into the pump phase still ahead of the station in a cycle towards
`T` liters. -/
def startsLeft (T : Int) (u : Unit) : Int :=
  if u.waitBeforeReset then 0
  else if u.fillingMix then (T - u.deliveredLiters + 19) / 20
  else (T - u.deliveredLiters + 19) / 20 - 1

/-! ## What a pass and a cycle execute -/

/-- Phase A ends on the station `u` (tests of lines 330 and 338), so that
`startPumpingDrone` is executed. -/
def fillExits (u : Unit) (i : Inputs) : Prop :=
  u.fillingMix = true ∧ (i.now ≥ u.pumpStopTime ∨ i.mixMoisture = HIGH)

instance (u : Unit) (i : Inputs) : Decidable (fillExits u i) :=
  inferInstanceAs
    (Decidable (u.fillingMix = true ∧ (i.now ≥ u.pumpStopTime ∨ i.mixMoisture = HIGH)))

/-- Phase B ends on the station `u` without overflow (tests of lines 346, 362 and
365), so that line 372 adds `batchLiters` to `deliveredLiters`. -/
def pumpCompletes (u : Unit) (i : Inputs) : Prop :=
  u.pumpRunning = true ∧ (i.now ≥ u.pumpStopTime ∨ i.moisture = HIGH) ∧ i.moisture = LOW

instance (u : Unit) (i : Inputs) : Decidable (pumpCompletes u i) :=
  inferInstanceAs
    (Decidable
      (u.pumpRunning = true ∧ (i.now ≥ u.pumpStopTime ∨ i.moisture = HIGH) ∧ i.moisture = LOW))

/-- Number of entries into the pump-to-drone phase during one pass (0 or 1): the
fill block runs on the station left by lines 298-327. -/
def pumpStarts (u : Unit) (i : Inputs) : Nat :=
  if fillExits (preStage u i) i then 1 else 0

/-- The batch that line 372 adds to `deliveredLiters` during one pass, if any: the
pump block runs on the station left by the fill block. -/
def batchCompleted (u : Unit) (i : Inputs) : Option Int :=
  if pumpCompletes (fillStage (preStage u i) i) i then
    some (fillStage (preStage u i) i).batchLiters
  else none

/-- The clamp of line 374 is executed during the pass and changes the value. -/
def clampChanges (u : Unit) (i : Inputs) : Prop :=
  pumpCompletes (fillStage (preStage u i) i) i ∧
    (fillStage (preStage u i) i).deliveredLiters + (fillStage (preStage u i) i).batchLiters >
      (fillStage (preStage u i) i).targetLiters

/-- The station at the end of the first pass that enters cooldown, if any. -/
def atCooldown : Unit → List Inputs → Option Unit
  | _, [] => none
  | u, i :: is => if (loop u i).waitBeforeReset then some (loop u i) else atCooldown (loop u i) is

/-- Entries into the pump-to-drone phase up to the first pass that enters
cooldown. -/
def cycleStarts : Unit → List Inputs → Nat
  | _, [] => 0
  | u, i :: is =>
    pumpStarts u i + (if (loop u i).waitBeforeReset then 0 else cycleStarts (loop u i) is)

/-- The batches added to `deliveredLiters`, in order, up to the first pass that
enters cooldown. -/
def cycleBatches : Unit → List Inputs → List Int
  | _, [] => []
  | u, i :: is =>
    (batchCompleted u i).toList ++
      (if (loop u i).waitBeforeReset then [] else cycleBatches (loop u i) is)

/-- Some pass up to the first one that enters cooldown has its clamp change the
delivered volume. -/
def cycleClamps : Unit → List Inputs → Prop
  | _, [] => False
  | u, i :: is =>
    clampChanges u i ∨ ((loop u i).waitBeforeReset = false ∧ cycleClamps (loop u i) is)

/-! ## Concrete readings and stations -/

/-- A pass at time `now` with dial reading `pot`, the start button at level `btn`
and no sensor asserted. -/
def quietPass (now : Nat) (pot : Int) (btn : Bool) : Inputs :=
  { now := now, potValue := pot, startBtn := btn, startBtnConfirm := btn,
    mixMoisture := LOW, moisture := LOW, switchLastState := HIGH, switchBtn := HIGH }

/-- A pass at time `now` in which the drone-tank sensor reads HIGH. -/
def overflowPass (now : Nat) : Inputs :=
  { now := now, potValue := 0, startBtn := HIGH, startBtnConfirm := HIGH,
    mixMoisture := LOW, moisture := HIGH, switchLastState := HIGH, switchBtn := HIGH }

/-- A pass taken exactly at the deadline of the current phase, with the button
released and no sensor asserted. -/
def deadlinePass (u : Unit) : Inputs :=
  { now := u.pumpStopTime, potValue := 0, startBtn := HIGH, startBtnConfirm := HIGH,
    mixMoisture := LOW, moisture := LOW, switchLastState := HIGH, switchBtn := HIGH }

/-- The readings of `n` successive passes, each taken at the deadline then current. -/
def deadlinePasses : Nat → Unit → List Inputs
  | 0, _ => []
  | n + 1, u => deadlinePass u :: deadlinePasses n (loop u (deadlinePass u))

/-- A two-liter cycle followed by the dial being turned down to one liter. -/
def dialDownRun : List Inputs :=
  [quietPass 0 42 LOW, quietPass 600 42 HIGH, quietPass 1200 42 HIGH, quietPass 2200 42 HIGH,
   quietPass 2250 0 HIGH]

/-- A 45-liter cycle: the press at time 0 and one pass at each deadline. -/
def cycle45 : List Inputs :=
  [quietPass 0 1820 LOW, quietPass 6000 1820 HIGH, quietPass 12000 1820 HIGH,
   quietPass 18000 1820 HIGH, quietPass 24000 1820 HIGH, quietPass 25500 1820 HIGH,
   quietPass 27000 1820 HIGH]

/-- The station while it pumps the only batch of a one-liter cycle (deadline 600). -/
def pumpingStation : Unit :=
  run setupUnitIO [quietPass 0 0 LOW, quietPass 300 0 HIGH]

/-- The station on entering cooldown after a one-liter cycle (`waitStartTime` 600). -/
def cooldownStation : Unit :=
  run setupUnitIO [quietPass 0 0 LOW, quietPass 300 0 HIGH, quietPass 600 0 HIGH]

/-- The batch does not exceed the tank capacity. -/
def BatchOK (u : Unit) : Prop := u.batchLiters ≤ MIX_TANK_CAPACITY

/-- A pass at time `now` in which the mix-tank sensor reads HIGH. -/
def mixFullPass (now : Nat) : Inputs :=
  { now := now, potValue := 373, startBtn := HIGH, startBtnConfirm := HIGH,
    mixMoisture := HIGH, moisture := LOW, switchLastState := HIGH, switchBtn := HIGH }

/-- The station in the first fill of a 10-liter cycle started at time 0 (batch 10,
deadline 3000). -/
def fillingTen : Unit := run setupUnitIO [quietPass 0 373 LOW]

/-- The actuator outputs agree with the phase flags: mix pump and valves are
energised (LOW) during the fill phase and off (HIGH) otherwise, the transfer pump
relay is energised (LOW) during the pump phase and off (HIGH) otherwise. -/
def ActOK (u : Unit) : Prop :=
  (u.fillingMix = true → u.pumpMixLevel = LOW ∧ u.valveALevel = LOW ∧ u.valveBLevel = LOW) ∧
  (u.fillingMix = false →
    u.pumpMixLevel = HIGH ∧ u.valveALevel = HIGH ∧ u.valveBLevel = HIGH) ∧
  (u.pumpRunning = true → u.relayLevel = LOW) ∧
  (u.pumpRunning = false → u.relayLevel = HIGH)

/-- A cycle towards `T` liters is in progress with some positive batch in flight
(the batch may have been forced to the tank capacity by the mix-tank sensor). -/
def InCycleM (T : Int) (u : Unit) : Prop :=
  u.targetLiters = T ∧ u.readyToStart = false ∧ u.waitBeforeReset = false ∧
  0 ≤ u.deliveredLiters ∧ u.deliveredLiters < T ∧ 0 < u.batchLiters ∧
  u.fillingMix = !u.pumpRunning

/-- Every station at the end of a pass, up to the first pass that enters cooldown,
satisfies `P`. -/
def cycleAll (P : Unit → Prop) : Unit → List Inputs → Prop
  | _, [] => True
  | u, i :: is => P (loop u i) ∧ ((loop u i).waitBeforeReset = false → cycleAll P (loop u i) is)

/-- The 10-liter scenario: press at 0, the mix-tank sensor trips at 50, and the pump
deadline 6050 is reached. -/
def mixFullRun : List Inputs :=
  [quietPass 0 373 LOW, mixFullPass 50, quietPass 6050 373 HIGH]

/-- The batches `startFillingMix` cuts from `r` remaining liters, at most `n` of
them: `min(20, r)` first, then the plan for what is left. -/
def batchPlan : Nat → Int → List Int
  | 0, _ => []
  | n + 1, r =>
    if r ≤ 0 then [] else
      min MIX_TANK_CAPACITY r :: batchPlan n (r - min MIX_TANK_CAPACITY r)

/-- Up to the first pass that enters cooldown, every pass whose fill block ends the
fill phase has the mix-tank sensor asserted. -/
def sensorEndsFill : Unit → List Inputs → Prop
  | _, [] => True
  | u, i :: is =>
    (fillExits (preStage u i) i → i.mixMoisture = HIGH) ∧
      ((loop u i).waitBeforeReset = false → sensorEndsFill (loop u i) is)

/-- A cycle towards `T` liters has delivered nothing yet and is either in its first
fill or pumping a batch that the mix-tank sensor forced to 20. -/
def FirstBatch (T : Int) (u : Unit) : Prop :=
  InCycleM T u ∧ u.deliveredLiters = 0 ∧
  (u.fillingMix = true ∨ (u.pumpRunning = true ∧ u.batchLiters = 20))

/-- Entries into the pump phase still ahead in a cycle of a single batch. -/
def firstBatchStarts (u : Unit) : Nat := if u.fillingMix then 1 else 0

theorem subU32_self (a : Nat) : subU32 a a = 0 := by
  unfold subU32 U32
  have h : a % 2 ^ 32 < 2 ^ 32 := Nat.mod_lt _ (by norm_num)
  omega

theorem toU32_MS_PER_LITER : toU32 MS_PER_LITER = 300 := by decide

theorem map_pot (r : Int) (h : 0 ≤ r) : map r 0 4095 1 100 = r * 99 / 4095 + 1 := by
  unfold map
  rw [Int.tdiv_eq_ediv (by omega) (by norm_num)]
  norm_num

theorem map_pot_pos (r : Int) (h : 0 ≤ r) : 1 ≤ map r 0 4095 1 100 := by
  rw [map_pot r h]
  omega

theorem map_pot_le (r : Int) (h : 0 ≤ r) (h2 : r ≤ 4095) : map r 0 4095 1 100 ≤ 100 := by
  rw [map_pot r h]
  omega

/-! ## Normal forms of the helpers and of the blocks of `loop()` -/

theorem updateStatusLine_two (u : Unit) (t : String) :
    updateStatusLine u 2 t = { u with statusLine2 := t } := rfl

theorem displayStage_eq (u : Unit) (i : Inputs) :
    displayStage u i = { u with needsDisplayUpdate := false } := by
  obtain ⟨a1, a2, a3, a4, a5, a6, a7, a8, a9, a10, a11, a12, a13, a14, a15, a16, a17, a18, a19,
    a20, a21, a22⟩ := u
  by_cases h : i.switchLastState = HIGH ∧ i.switchBtn = LOW <;> cases a9 <;>
    simp [displayStage, handleUnitSwitch, refreshDisplayForUnit, h]

theorem idleStage_not_idle (u : Unit) (i : Inputs) (h : ¬ Idle u) : idleStage u i = u := by
  unfold idleStage
  rw [if_neg]
  simpa [Idle] using h

theorem idleStage_idle (u : Unit) (i : Inputs) (h : Idle u) :
    idleStage u i =
      { u with
        targetLiters := map i.potValue 0 4095 1 100
        currentLiters :=
          if map i.potValue 0 4095 1 100 ≠ u.lastDisplayedLiters ∨ u.needsDisplayUpdate = true
          then map i.potValue 0 4095 1 100 else u.currentLiters
        lastDisplayedLiters := map i.potValue 0 4095 1 100
        needsDisplayUpdate := false } := by
  obtain ⟨a1, a2, a3, a4, a5, a6, a7, a8, a9, a10, a11, a12, a13, a14, a15, a16, a17, a18, a19,
    a20, a21, a22⟩ := u
  obtain ⟨h1, h2, h3⟩ := h
  simp only at h1 h2 h3
  subst h1 h2 h3
  by_cases hc : map i.potValue 0 4095 1 100 ≠ a3 ∨ a9 = true
  · simp [idleStage, hc]
  · have hc1 : map i.potValue 0 4095 1 100 = a3 := by
      by_contra h; exact hc (Or.inl h)
    have hc2 : a9 = false := by
      cases a9
      · rfl
      · exact absurd (Or.inr rfl) hc
    subst hc2
    simp [idleStage, hc1]


theorem ledUpdateGradient_eq (u : Unit) (p : Rat) :
    ledUpdateGradient u p =
      { u with
        lastProgress01 := constrain p 0 1
        ledR := constrain (colorFromProgress (constrain p 0 1)).1 0 255
        ledG := constrain (colorFromProgress (constrain p 0 1)).2.1 0 255
        ledB := constrain (colorFromProgress (constrain p 0 1)).2.2 0 255 } := rfl

theorem ledOff_eq (u : Unit) : ledOff u = { u with ledR := 0, ledG := 0, ledB := 0 } := rfl

theorem ledRed_eq (u : Unit) : ledRed u = { u with ledR := 255, ledG := 0, ledB := 0 } := rfl

theorem showProgress_eq (u : Unit) :
    showProgress u =
      { u with
        lastProgress01 := if u.targetLiters > 0 then
          constrain ((u.deliveredLiters : Rat) / (u.targetLiters : Rat)) 0 1 else u.lastProgress01
        ledR := if u.targetLiters > 0 then
          constrain (colorFromProgress
            (constrain ((u.deliveredLiters : Rat) / (u.targetLiters : Rat)) 0 1)).1 0 255
          else u.ledR
        ledG := if u.targetLiters > 0 then
          constrain (colorFromProgress
            (constrain ((u.deliveredLiters : Rat) / (u.targetLiters : Rat)) 0 1)).2.1 0 255
          else u.ledG
        ledB := if u.targetLiters > 0 then
          constrain (colorFromProgress
            (constrain ((u.deliveredLiters : Rat) / (u.targetLiters : Rat)) 0 1)).2.2 0 255
          else u.ledB } := by
  by_cases h : u.targetLiters > 0
  · simp only [showProgress, h, if_true, ledUpdateGradient_eq]
  · simp only [showProgress, h, if_false]

theorem startFillingMix_skip (u : Unit) (now : Nat)
    (h : min MIX_TANK_CAPACITY (u.targetLiters - u.deliveredLiters) ≤ 0) :
    startFillingMix u now =
      { u with
        fillingMix := true
        pumpRunning := false
        batchLiters := min MIX_TANK_CAPACITY (u.targetLiters - u.deliveredLiters)
        waitBeforeReset := true
        waitStartTime := now
        statusLine2 := "ready again" } := by
  simp only [startFillingMix, h, if_true, updateStatusLine_two]

theorem startFillingMix_go (u : Unit) (now : Nat)
    (h : 0 < min MIX_TANK_CAPACITY (u.targetLiters - u.deliveredLiters)) :
    startFillingMix u now =
      showProgress
        { u with
          fillingMix := true
          pumpRunning := false
          batchLiters := min MIX_TANK_CAPACITY (u.targetLiters - u.deliveredLiters)
          valveALevel := LOW
          valveBLevel := LOW
          pumpMixLevel := LOW
          pumpStopTime := addU32 now
            (toU32 (min MIX_TANK_CAPACITY (u.targetLiters - u.deliveredLiters) * MS_PER_LITER))
          statusLine2 := "mix <- " ++
            toString (min MIX_TANK_CAPACITY (u.targetLiters - u.deliveredLiters)) } := by
  have h2 : ¬ min MIX_TANK_CAPACITY (u.targetLiters - u.deliveredLiters) ≤ 0 := not_le.mpr h
  simp only [startFillingMix, h2, if_false, updateStatusLine_two, valvesOpen, pumpMixOn]

theorem stopFillingMix_eq (u : Unit) :
    stopFillingMix u =
      { u with pumpMixLevel := HIGH, valveALevel := HIGH, valveBLevel := HIGH,
               fillingMix := false } := rfl

theorem startPumpingDrone_eq (u : Unit) (now : Nat) :
    startPumpingDrone u now =
      showProgress
        { u with
          pumpRunning := true
          relayLevel := LOW
          pumpStopTime := addU32 now (toU32 (u.batchLiters * MS_PER_LITER))
          statusLine2 := "pump on <- " ++ toString u.batchLiters } := rfl

theorem stopPumpingDrone_eq (u : Unit) :
    stopPumpingDrone u = { u with relayLevel := HIGH, pumpRunning := false } := rfl

theorem startStage_skip (u : Unit) (i : Inputs)
    (h : ¬ (Idle u ∧ i.startBtn = LOW ∧ i.startBtnConfirm = LOW)) : startStage u i = u := by
  unfold startStage
  by_cases h1 : (!u.fillingMix) = true ∧ (!u.pumpRunning) = true ∧ u.readyToStart = true ∧
      i.startBtn = LOW
  · rw [if_pos h1, if_neg]
    intro h2
    apply h
    simp only [Idle]
    simp only [Bool.not_eq_true'] at h1
    exact ⟨⟨h1.1, h1.2.1, h1.2.2.1⟩, h1.2.2.2, h2⟩
  · rw [if_neg h1]

theorem startStage_go (u : Unit) (i : Inputs) (h : Idle u) (h1 : i.startBtn = LOW)
    (h2 : i.startBtnConfirm = LOW) :
    startStage u i =
      startFillingMix
        { u with readyToStart := false, deliveredLiters := 0, needsDisplayUpdate := true }
        i.now := by
  obtain ⟨h3, h4, h5⟩ := h
  simp only [startStage, h1, h2, h3, h4, h5, Bool.not_false, and_self, if_true]

theorem fillShow_eq (u : Unit) (i : Inputs) :
    fillShow u i =
      { u with
        currentLiters := remainingLiters u.pumpStopTime i.now
        statusLine2 :=
          if remainingLiters u.pumpStopTime i.now ≠ u.currentLiters
          then "mix <- " ++ toString (remainingLiters u.pumpStopTime i.now)
          else u.statusLine2 } := by
  by_cases h : remainingLiters u.pumpStopTime i.now ≠ u.currentLiters
  · simp only [fillShow, h, if_true, updateStatusLine_two, ne_eq, not_false_eq_true]
  · have h2 : remainingLiters u.pumpStopTime i.now = u.currentLiters := not_not.mp h
    simp only [fillShow, h2, ne_eq, not_true_eq_false, if_false]

theorem fillStage_off (u : Unit) (i : Inputs) (h : u.fillingMix = false) : fillStage u i = u := by
  simp [fillStage, h]

theorem fillStage_stay (u : Unit) (i : Inputs) (h : u.fillingMix = true)
    (ht : i.now < u.pumpStopTime) (hm : i.mixMoisture = LOW) : fillStage u i = fillShow u i := by
  have h1 : ¬ i.now ≥ u.pumpStopTime := not_le.mpr ht
  simp [fillStage, h, fillShow_eq, h1, hm, HIGH, LOW]

theorem fillStage_exit (u : Unit) (i : Inputs) (h : u.fillingMix = true)
    (hx : i.now ≥ u.pumpStopTime ∨ i.mixMoisture = HIGH) :
    fillStage u i =
      startPumpingDrone
        (stopFillingMix
          { fillShow u i with
            batchLiters := if i.mixMoisture = HIGH then MIX_TANK_CAPACITY else u.batchLiters })
        i.now := by
  by_cases hm : i.mixMoisture = HIGH
  · simp [fillStage, h, fillShow_eq, hm]
  · have h1 : i.now ≥ u.pumpStopTime := hx.resolve_right hm
    simp [fillStage, h, fillShow_eq, hm, h1]

theorem pumpShow_eq (u : Unit) (i : Inputs) :
    pumpShow u i =
      { u with
        currentLiters := remainingLiters u.pumpStopTime i.now
        statusLine2 :=
          if remainingLiters u.pumpStopTime i.now ≠ u.currentLiters
          then "pump on <- " ++ toString (remainingLiters u.pumpStopTime i.now)
          else u.statusLine2
        lastProgress01 := (showPumped u i).lastProgress01
        ledR := (showPumped u i).ledR
        ledG := (showPumped u i).ledG
        ledB := (showPumped u i).ledB } := by
  by_cases h : remainingLiters u.pumpStopTime i.now ≠ u.currentLiters
  · by_cases ht : u.targetLiters > 0
    · simp only [pumpShow, showPumped, h, ht, if_true, updateStatusLine_two, ne_eq,
        not_false_eq_true, ledUpdateGradient_eq]
    · simp only [pumpShow, showPumped, h, ht, if_true, if_false, updateStatusLine_two, ne_eq,
        not_false_eq_true]
  · have h2 : remainingLiters u.pumpStopTime i.now = u.currentLiters := not_not.mp h
    by_cases ht : u.targetLiters > 0
    · simp only [pumpShow, showPumped, h2, ht, if_true, ne_eq, not_true_eq_false, if_false,
        ledUpdateGradient_eq]
    · simp only [pumpShow, showPumped, h2, ht, ne_eq, not_true_eq_false, if_false]

theorem pumpFinish_overflow (u : Unit) (i : Inputs) (ho : i.moisture = HIGH) :
    pumpFinish u i =
      { u with
        relayLevel := HIGH
        pumpRunning := false
        ledR := 255
        ledG := 0
        ledB := 0
        deliveredLiters := u.targetLiters
        statusLine2 := "filled in "
        waitBeforeReset := true
        waitStartTime := i.now } := by
  simp [pumpFinish, ho, stopPumpingDrone_eq, ledRed_eq, updateStatusLine_two]

theorem pumpFinish_done (u : Unit) (i : Inputs) (ho : i.moisture = LOW)
    (hd : u.deliveredLiters + u.batchLiters ≥ u.targetLiters) :
    pumpFinish u i =
      { u with
        relayLevel := HIGH
        pumpRunning := false
        deliveredLiters := u.targetLiters
        statusLine2 := "pump off "
        ledR := 0
        ledG := 0
        ledB := 0
        waitBeforeReset := true
        waitStartTime := i.now } := by
  simp [pumpFinish, ho, stopPumpingDrone_eq, ledOff_eq, updateStatusLine_two, hd, HIGH, LOW]

theorem pumpFinish_repeat (u : Unit) (i : Inputs) (ho : i.moisture = LOW)
    (hd : u.deliveredLiters + u.batchLiters < u.targetLiters) :
    pumpFinish u i =
      startFillingMix
        { u with
          relayLevel := HIGH
          pumpRunning := false
          deliveredLiters := u.deliveredLiters + u.batchLiters }
        i.now := by
  have hd2 : ¬ u.targetLiters ≤ u.deliveredLiters + u.batchLiters := not_le.mpr hd
  simp [pumpFinish, ho, stopPumpingDrone_eq, hd2, HIGH, LOW]

theorem pumpStage_off (u : Unit) (i : Inputs) (h : u.pumpRunning = false) : pumpStage u i = u := by
  simp [pumpStage, h]

theorem pumpStage_stay (u : Unit) (i : Inputs) (h : u.pumpRunning = true)
    (ht : i.now < u.pumpStopTime) (ho : i.moisture = LOW) : pumpStage u i = pumpShow u i := by
  have h1 : ¬ i.now ≥ u.pumpStopTime := not_le.mpr ht
  simp [pumpStage, h, pumpShow_eq, h1, ho, HIGH, LOW]

theorem pumpStage_exit (u : Unit) (i : Inputs) (h : u.pumpRunning = true)
    (hx : i.now ≥ u.pumpStopTime ∨ i.moisture = HIGH) :
    pumpStage u i = pumpFinish (pumpShow u i) i := by
  have hx2 : u.pumpStopTime ≤ i.now ∨ i.moisture = HIGH := hx
  simp [pumpStage, h, pumpShow_eq, hx2]

theorem cooldownStage_off (u : Unit) (i : Inputs) (h : u.waitBeforeReset = false) :
    cooldownStage u i = u := by
  simp [cooldownStage, h]

theorem cooldownStage_dwell (u : Unit) (i : Inputs)
    (ht : subU32 i.now u.waitStartTime < 1000) : cooldownStage u i = u := by
  have h1 : ¬ subU32 i.now u.waitStartTime ≥ 1000 := not_le.mpr ht
  simp only [cooldownStage, h1, if_false, ite_self]

theorem cooldownStage_done (u : Unit) (i : Inputs) (h : u.waitBeforeReset = true)
    (ht : subU32 i.now u.waitStartTime ≥ 1000) :
    cooldownStage u i =
      { u with
        readyToStart := true
        waitBeforeReset := false
        needsDisplayUpdate := true
        fillingMix := false
        pumpRunning := false
        statusLine2 := "ready again"
        ledR := 0
        ledG := 0
        ledB := 0 } := by
  simp only [cooldownStage, h, ht, if_true, updateStatusLine_two, ledOff_eq]

theorem bool_eq_LOW_of_ne_HIGH {b : Bool} (h : ¬ b = HIGH) : b = LOW := by
  cases b
  · rfl
  · exact absurd rfl h

theorem preStage_busy (u : Unit) (i : Inputs) (h : ¬ Idle u) :
    preStage u i = { u with needsDisplayUpdate := false } := by
  have h1 : ¬ Idle (displayStage u i) := by
    rw [displayStage_eq]
    exact h
  unfold preStage
  rw [idleStage_not_idle _ _ h1, startStage_skip _ _ (fun hc => h1 hc.1), displayStage_eq]

theorem fillStage_cases (u : Unit) (i : Inputs) :
    (u.fillingMix = false ∧ fillStage u i = u) ∨
    (u.fillingMix = true ∧ i.now < u.pumpStopTime ∧ i.mixMoisture = LOW ∧
      fillStage u i = fillShow u i) ∨
    (u.fillingMix = true ∧ (i.now ≥ u.pumpStopTime ∨ i.mixMoisture = HIGH) ∧
      fillStage u i =
        startPumpingDrone
          (stopFillingMix
            { fillShow u i with
              batchLiters := if i.mixMoisture = HIGH then MIX_TANK_CAPACITY else u.batchLiters })
          i.now) := by
  by_cases h : u.fillingMix = true
  · by_cases hx : i.now ≥ u.pumpStopTime ∨ i.mixMoisture = HIGH
    · exact Or.inr (Or.inr ⟨h, hx, fillStage_exit u i h hx⟩)
    · have ht : i.now < u.pumpStopTime := not_le.mp (fun hc => hx (Or.inl hc))
      have hm : i.mixMoisture = LOW := bool_eq_LOW_of_ne_HIGH (fun hc => hx (Or.inr hc))
      exact Or.inr (Or.inl ⟨h, ht, hm, fillStage_stay u i h ht hm⟩)
  · have h2 : u.fillingMix = false := by simpa using h
    exact Or.inl ⟨h2, fillStage_off u i h2⟩

theorem fillStage_pumpRunning_of (u : Unit) (i : Inputs) (h : u.pumpRunning = true) :
    (fillStage u i).pumpRunning = true := by
  rcases fillStage_cases u i with ⟨_, e⟩ | ⟨_, _, _, e⟩ | ⟨_, _, e⟩ <;> rw [e]
  · exact h
  · rw [fillShow_eq]; exact h
  · rw [startPumpingDrone_eq, showProgress_eq]

theorem fillStage_targetLiters (u : Unit) (i : Inputs) :
    (fillStage u i).targetLiters = u.targetLiters := by
  rcases fillStage_cases u i with ⟨_, e⟩ | ⟨_, _, _, e⟩ | ⟨_, _, e⟩ <;> rw [e]
  · rw [fillShow_eq]
  · rw [startPumpingDrone_eq, showProgress_eq, stopFillingMix_eq, fillShow_eq]

theorem pumpStage_cases (u : Unit) (i : Inputs) :
    (u.pumpRunning = false ∧ pumpStage u i = u) ∨
    (u.pumpRunning = true ∧ i.now < u.pumpStopTime ∧ i.moisture = LOW ∧
      pumpStage u i = pumpShow u i) ∨
    (u.pumpRunning = true ∧ i.moisture = HIGH ∧
      pumpStage u i = pumpFinish (pumpShow u i) i) ∨
    (u.pumpRunning = true ∧ i.now ≥ u.pumpStopTime ∧ i.moisture = LOW ∧
      pumpStage u i = pumpFinish (pumpShow u i) i) := by
  by_cases h : u.pumpRunning = true
  · by_cases ho : i.moisture = HIGH
    · exact Or.inr (Or.inr (Or.inl ⟨h, ho, pumpStage_exit u i h (Or.inr ho)⟩))
    · have ho2 : i.moisture = LOW := bool_eq_LOW_of_ne_HIGH ho
      by_cases ht : i.now ≥ u.pumpStopTime
      · exact Or.inr (Or.inr (Or.inr ⟨h, ht, ho2, pumpStage_exit u i h (Or.inl ht)⟩))
      · exact Or.inr (Or.inl ⟨h, not_le.mp ht, ho2, pumpStage_stay u i h (not_le.mp ht) ho2⟩)
  · have h2 : u.pumpRunning = false := by simpa using h
    exact Or.inl ⟨h2, pumpStage_off u i h2⟩

theorem cooldownStage_cases (u : Unit) (i : Inputs) :
    cooldownStage u i = u ∨
    (u.waitBeforeReset = true ∧ subU32 i.now u.waitStartTime ≥ 1000 ∧
      cooldownStage u i =
        { u with
          readyToStart := true
          waitBeforeReset := false
          needsDisplayUpdate := true
          fillingMix := false
          pumpRunning := false
          statusLine2 := "ready again"
          ledR := 0
          ledG := 0
          ledB := 0 }) := by
  by_cases h : u.waitBeforeReset = true
  · by_cases ht : subU32 i.now u.waitStartTime ≥ 1000
    · exact Or.inr ⟨h, ht, cooldownStage_done u i h ht⟩
    · exact Or.inl (cooldownStage_dwell u i (not_le.mp ht))
  · have h2 : u.waitBeforeReset = false := by simpa using h
    exact Or.inl (cooldownStage_off u i h2)

theorem preStage_idle_released (u : Unit) (i : Inputs) (h : Idle u) (hb : ¬ Pressed i) :
    preStage u i =
      { u with
        targetLiters := map i.potValue 0 4095 1 100
        currentLiters :=
          if map i.potValue 0 4095 1 100 ≠ u.lastDisplayedLiters
          then map i.potValue 0 4095 1 100 else u.currentLiters
        lastDisplayedLiters := map i.potValue 0 4095 1 100
        needsDisplayUpdate := false } := by
  have h1 : Idle (displayStage u i) := by
    rw [displayStage_eq]
    exact h
  unfold preStage
  rw [startStage_skip, idleStage_idle _ _ h1, displayStage_eq]
  · simp
  · intro hc
    exact hb ⟨hc.2.1, hc.2.2⟩

theorem preStage_idle_pressed (u : Unit) (i : Inputs) (h : Idle u) (hb : Pressed i) :
    preStage u i =
      startFillingMix
        { u with
          targetLiters := map i.potValue 0 4095 1 100
          currentLiters :=
            if map i.potValue 0 4095 1 100 ≠ u.lastDisplayedLiters
            then map i.potValue 0 4095 1 100 else u.currentLiters
          lastDisplayedLiters := map i.potValue 0 4095 1 100
          readyToStart := false
          deliveredLiters := 0
          needsDisplayUpdate := true }
        i.now := by
  have h1 : Idle (displayStage u i) := by
    rw [displayStage_eq]
    exact h
  have h2 : Idle (idleStage (displayStage u i) i) := by
    rw [idleStage_idle _ _ h1, displayStage_eq]
    exact h
  unfold preStage
  rw [startStage_go _ _ h2 hb.1 hb.2, idleStage_idle _ _ h1, displayStage_eq]
  simp

theorem min_capacity_pos {x : Int} (h : 0 < x) : 0 < min MIX_TANK_CAPACITY x := by
  unfold MIX_TANK_CAPACITY
  omega

theorem preStage_PhaseOK (u : Unit) (i : Inputs) (hr : 0 ≤ i.potValue) (h : PhaseOK u) :
    PhaseOK (preStage u i) := by
  by_cases hi : Idle u
  · by_cases hb : Pressed i
    · rw [preStage_idle_pressed u i hi hb, startFillingMix_go _ _ (by
        apply min_capacity_pos
        have := map_pot_pos i.potValue hr
        simp only
        omega), showProgress_eq]
      obtain ⟨h1, h2, h3, h4⟩ := h
      have h5 := h4 hi.2.2
      simp only [PhaseOK, h5.2.2]
      simp
    · rw [preStage_idle_released u i hi hb]
      exact h
  · rw [preStage_busy u i hi]
    exact h

theorem fillStage_PhaseOK (u : Unit) (i : Inputs) (h : PhaseOK u) : PhaseOK (fillStage u i) := by
  rcases fillStage_cases u i with ⟨_, e⟩ | ⟨_, _, _, e⟩ | ⟨hf, _, e⟩ <;> rw [e]
  · exact h
  · rw [fillShow_eq]
    exact h
  · rw [startPumpingDrone_eq, showProgress_eq, stopFillingMix_eq, fillShow_eq]
    obtain ⟨h1, h2, h3, h4⟩ := h
    simp only [PhaseOK]
    have hw : u.waitBeforeReset = false := by
      cases hw : u.waitBeforeReset
      · rfl
      · exact absurd ⟨hf, hw⟩ h2
    have hr : u.readyToStart = false := by
      cases hr : u.readyToStart
      · rfl
      · rw [(h4 hr).1] at hf
        exact Bool.noConfusion hf
    simp [hw, hr]

theorem pumpStage_PhaseOK (u : Unit) (i : Inputs) (h : PhaseOK u) : PhaseOK (pumpStage u i) := by
  obtain ⟨h1, h2, h3, h4⟩ := h
  rcases pumpStage_cases u i with ⟨_, e⟩ | ⟨_, _, _, e⟩ | ⟨hp, ho, e⟩ | ⟨hp, ht, ho, e⟩
  · rw [e]
    exact ⟨h1, h2, h3, h4⟩
  · rw [e, pumpShow_eq]
    exact ⟨h1, h2, h3, h4⟩
  all_goals
    have hf : u.fillingMix = false := by
      cases hf : u.fillingMix
      · rfl
      · exact absurd ⟨hf, hp⟩ h1
    have hr : u.readyToStart = false := by
      cases hr : u.readyToStart
      · rfl
      · rw [(h4 hr).2.1] at hp
        exact Bool.noConfusion hp
    have hw : u.waitBeforeReset = false := by
      cases hw : u.waitBeforeReset
      · rfl
      · exact absurd ⟨hp, hw⟩ h3
  · rw [e, pumpFinish_overflow _ _ ho, pumpShow_eq]
    simp [PhaseOK, hf, hr]
  · by_cases hd : (pumpShow u i).deliveredLiters + (pumpShow u i).batchLiters
        ≥ (pumpShow u i).targetLiters
    · rw [e, pumpFinish_done _ _ ho hd, pumpShow_eq]
      simp [PhaseOK, hf, hr]
    · have hd2 := not_le.mp hd
      rw [e, pumpFinish_repeat _ _ ho hd2, startFillingMix_go _ _ (by
        apply min_capacity_pos
        simp only
        omega), showProgress_eq, pumpShow_eq]
      simp [PhaseOK, hw, hr]

theorem cooldownStage_PhaseOK (u : Unit) (i : Inputs) (h : PhaseOK u) :
    PhaseOK (cooldownStage u i) := by
  rcases cooldownStage_cases u i with e | ⟨_, _, e⟩ <;> rw [e]
  · exact h
  · simp [PhaseOK]

theorem loop_PhaseOK (u : Unit) (i : Inputs) (hr : 0 ≤ i.potValue) (h : PhaseOK u) :
    PhaseOK (loop u i) :=
  cooldownStage_PhaseOK _ i (pumpStage_PhaseOK _ i (fillStage_PhaseOK _ i
    (preStage_PhaseOK u i hr h)))

theorem run_PhaseOK (is : List Inputs) (u : Unit) (hr : ∀ i ∈ is, PotInRange i) (h : PhaseOK u) :
    PhaseOK (run u is) := by
  induction is generalizing u with
  | nil => exact h
  | cons i is ih =>
    have hi : PotInRange i := hr i (List.mem_cons_self i is)
    exact ih (loop u i) (fun j hj => hr j (List.mem_cons_of_mem i hj)) (loop_PhaseOK u i hi.1 h)

theorem setup_PhaseOK : PhaseOK setupUnitIO := by
  simp [PhaseOK, setupUnitIO, ledOff_eq, pumpDroneOff, pumpMixOff, valvesClose]

theorem preStage_LitersOK (u : Unit) (i : Inputs) (hr : 0 ≤ i.potValue) (h : LitersOK u) :
    LitersOK (preStage u i) := by
  have hm := map_pot_pos i.potValue hr
  by_cases hi : Idle u
  · by_cases hb : Pressed i
    · rw [preStage_idle_pressed u i hi hb, startFillingMix_go _ _ (by
        apply min_capacity_pos
        simp only
        omega), showProgress_eq]
      simp only [LitersOK, MIX_TANK_CAPACITY]
      omega
    · rw [preStage_idle_released u i hi hb]
      obtain ⟨h1, h2, h3, h4⟩ := h
      simp only [LitersOK, hi.2.2]
      simp
      omega
  · rw [preStage_busy u i hi]
    exact h

theorem fillStage_LitersOK (u : Unit) (i : Inputs) (h : LitersOK u) : LitersOK (fillStage u i) := by
  rcases fillStage_cases u i with ⟨_, e⟩ | ⟨_, _, _, e⟩ | ⟨hf, _, e⟩ <;> rw [e]
  · exact h
  · rw [fillShow_eq]
    exact h
  · rw [startPumpingDrone_eq, showProgress_eq, stopFillingMix_eq, fillShow_eq]
    obtain ⟨h1, h2, h3, h4⟩ := h
    refine ⟨h1, h2, ?_, h4⟩
    simp only [MIX_TANK_CAPACITY]
    split <;> omega

theorem pumpStage_LitersOK (u : Unit) (i : Inputs) (h : LitersOK u) : LitersOK (pumpStage u i) := by
  obtain ⟨h1, h2, h3, h4⟩ := h
  rcases pumpStage_cases u i with ⟨_, e⟩ | ⟨_, _, _, e⟩ | ⟨hp, ho, e⟩ | ⟨hp, ht, ho, e⟩
  · rw [e]
    exact ⟨h1, h2, h3, h4⟩
  · rw [e, pumpShow_eq]
    exact ⟨h1, h2, h3, h4⟩
  · rw [e, pumpFinish_overflow _ _ ho, pumpShow_eq]
    exact ⟨h1, h1, h3, fun _ => le_refl _⟩
  · by_cases hd : (pumpShow u i).deliveredLiters + (pumpShow u i).batchLiters
        ≥ (pumpShow u i).targetLiters
    · rw [e, pumpFinish_done _ _ ho hd, pumpShow_eq]
      exact ⟨h1, h1, h3, fun _ => le_refl _⟩
    · have hd2 := not_le.mp hd
      rw [e, pumpFinish_repeat _ _ ho hd2, startFillingMix_go _ _ (by
        apply min_capacity_pos
        simp only
        omega), showProgress_eq]
      rw [pumpShow_eq] at hd2 ⊢
      simp only at hd2
      simp only [LitersOK, MIX_TANK_CAPACITY]
      omega

theorem cooldownStage_LitersOK (u : Unit) (i : Inputs) (h : LitersOK u) :
    LitersOK (cooldownStage u i) := by
  rcases cooldownStage_cases u i with e | ⟨_, _, e⟩ <;> rw [e]
  · exact h
  · obtain ⟨h1, h2, h3, _⟩ := h
    exact ⟨h1, h2, h3, fun hc => Bool.noConfusion hc⟩

theorem loop_LitersOK (u : Unit) (i : Inputs) (hr : 0 ≤ i.potValue) (h : LitersOK u) :
    LitersOK (loop u i) :=
  cooldownStage_LitersOK _ i (pumpStage_LitersOK _ i (fillStage_LitersOK _ i
    (preStage_LitersOK u i hr h)))

theorem run_LitersOK (is : List Inputs) (u : Unit) (hr : ∀ i ∈ is, PotInRange i)
    (h : LitersOK u) : LitersOK (run u is) := by
  induction is generalizing u with
  | nil => exact h
  | cons i is ih =>
    have hi : PotInRange i := hr i (List.mem_cons_self i is)
    exact ih (loop u i) (fun j hj => hr j (List.mem_cons_of_mem i hj)) (loop_LitersOK u i hi.1 h)

theorem setup_LitersOK : LitersOK setupUnitIO := by
  simp [LitersOK, setupUnitIO, ledOff_eq, pumpDroneOff, pumpMixOff, valvesClose]

theorem fillStage_cycle (T : Int) (u : Unit) (i : Inputs) (h : InCycle T u)
    (hm : i.mixMoisture = LOW) :
    InCycle T (fillStage u i) ∧
    (fillStage u i).deliveredLiters = u.deliveredLiters ∧
    (if fillExits u i then 1 else 0) + startsLeft T (fillStage u i) = startsLeft T u := by
  obtain ⟨h1, h2, h3, h4, h5, h6, h7⟩ := h
  have hmh : ¬ i.mixMoisture = HIGH := by rw [hm]; decide
  rcases fillStage_cases u i with ⟨hf, e⟩ | ⟨hf, ht, _, e⟩ | ⟨hf, hx, e⟩
  · rw [e]
    refine ⟨⟨h1, h2, h3, h4, h5, h6, h7⟩, rfl, ?_⟩
    simp [fillExits, hf]
  · rw [e, fillShow_eq]
    refine ⟨⟨h1, h2, h3, h4, h5, h6, h7⟩, rfl, ?_⟩
    have : ¬ fillExits u i := fun hc => hc.2.elim (fun h => absurd ht (not_lt.mpr h)) hmh
    simp [this, startsLeft]
  · rw [e, startPumpingDrone_eq, showProgress_eq, stopFillingMix_eq, fillShow_eq]
    have hfe : fillExits u i := ⟨hf, hx⟩
    refine ⟨⟨h1, h2, h3, h4, h5, ?_, rfl⟩, rfl, ?_⟩
    · simp only [hmh, if_false]
      exact h6
    · simp [hfe, startsLeft, h3, hf]

theorem pumpStage_cycle (T : Int) (u : Unit) (i : Inputs) (h : InCycle T u)
    (ho : i.moisture = LOW) :
    (InCycle T (pumpStage u i) ∨ CycleDone T i.now (pumpStage u i)) ∧
    startsLeft T (pumpStage u i) = startsLeft T u ∧
    (pumpStage u i).deliveredLiters =
      u.deliveredLiters + (if pumpCompletes u i then u.batchLiters else 0) ∧
    ¬ (pumpCompletes u i ∧ u.deliveredLiters + u.batchLiters > u.targetLiters) ∧
    (pumpCompletes u i → (pumpStage u i).pumpRunning = false) := by
  obtain ⟨h1, h2, h3, h4, h5, h6, h7⟩ := h
  have hoh : ¬ i.moisture = HIGH := by rw [ho]; decide
  have hb : u.batchLiters = min 20 (T - u.deliveredLiters) := h6
  have hclamp : ¬ (pumpCompletes u i ∧ u.deliveredLiters + u.batchLiters > u.targetLiters) := by
    rintro ⟨_, hc⟩
    omega
  rcases pumpStage_cases u i with ⟨hp, e⟩ | ⟨hp, ht, _, e⟩ | ⟨_, hc, _⟩ | ⟨hp, ht, _, e⟩
  · rw [e]
    have : ¬ pumpCompletes u i := fun hc => by
      have hc1 := hc.1
      rw [hp] at hc1
      exact Bool.noConfusion hc1
    exact ⟨Or.inl ⟨h1, h2, h3, h4, h5, h6, h7⟩, rfl, by simp [this], hclamp,
      fun hc => absurd hc this⟩
  · rw [e, pumpShow_eq]
    have : ¬ pumpCompletes u i := fun hc => hc.2.1.elim (fun h => absurd ht (not_lt.mpr h)) hoh
    exact ⟨Or.inl ⟨h1, h2, h3, h4, h5, h6, h7⟩, by simp [startsLeft], by simp [this], hclamp,
      fun hc => absurd hc this⟩
  · exact absurd hc hoh
  · have hpc : pumpCompletes u i := ⟨hp, Or.inl ht, ho⟩
    have hf : u.fillingMix = false := by rw [h7, hp]; rfl
    by_cases hd : (pumpShow u i).deliveredLiters + (pumpShow u i).batchLiters
        ≥ (pumpShow u i).targetLiters
    · rw [e, pumpFinish_done _ _ ho hd, pumpShow_eq]
      rw [pumpShow_eq] at hd
      simp only at hd
      refine ⟨Or.inr ⟨h1, h2, rfl, h1, hf, rfl, rfl⟩, ?_, ?_, hclamp, fun _ => rfl⟩
      · simp only [startsLeft, h3, hf, if_true, Bool.false_eq_true, if_false]
        omega
      · simp only [hpc, if_true]
        omega
    · have hd2 := not_le.mp hd
      rw [e, pumpFinish_repeat _ _ ho hd2, startFillingMix_go _ _ (by
        apply min_capacity_pos
        simp only
        omega), showProgress_eq]
      rw [pumpShow_eq] at hd2 ⊢
      simp only at hd2
      have hb20 : u.batchLiters = 20 := by omega
      refine ⟨Or.inl ⟨h1, h2, h3, by simp only; omega, by simp only; omega, ?_, rfl⟩, ?_, ?_,
        hclamp, fun _ => rfl⟩
      · simp only [h1]
      · simp only [startsLeft, h3, hf, if_true, Bool.false_eq_true, if_false]
        omega
      · simp only [hpc, if_true]

theorem cooldownStage_cycle (T : Int) (u : Unit) (i : Inputs)
    (h : InCycle T u ∨ CycleDone T i.now u) : cooldownStage u i = u := by
  rcases h with h | h
  · exact cooldownStage_off u i h.2.2.1
  · apply cooldownStage_dwell
    rw [h.2.2.2.2.2.2, subU32_self]
    norm_num

theorem cycle_pass (T : Int) (u : Unit) (i : Inputs) (h : InCycle T (preStage u i))
    (hq : NoOverflow i) :
    (InCycle T (loop u i) ∨ CycleDone T i.now (loop u i)) ∧
    (pumpStarts u i : Int) + startsLeft T (loop u i) = startsLeft T (preStage u i) ∧
    (loop u i).deliveredLiters =
      (preStage u i).deliveredLiters + ((batchCompleted u i).toList).sum ∧
    ¬ clampChanges u i ∧
    (pumpCompletes (fillStage (preStage u i) i) i → (loop u i).pumpRunning = false) := by
  obtain ⟨f1, f2, f3⟩ := fillStage_cycle T (preStage u i) i h hq.1
  obtain ⟨p1, p2, p3, p4, p5⟩ := pumpStage_cycle T (fillStage (preStage u i) i) i f1 hq.2
  have e : loop u i = pumpStage (fillStage (preStage u i) i) i := by
    unfold loop phaseStage
    exact cooldownStage_cycle T _ i p1
  rw [e]
  refine ⟨p1, ?_, ?_, p4, p5⟩
  · rw [p2, ← f3]
    unfold pumpStarts
    split <;> simp
  · rw [p3, f2]
    unfold batchCompleted
    split <;> simp

theorem preStage_InCycle (T : Int) (u : Unit) (i : Inputs) (h : InCycle T u) :
    preStage u i = { u with needsDisplayUpdate := false } ∧ InCycle T (preStage u i) := by
  have hni : ¬ Idle u := fun hc => by
    have := hc.2.2
    rw [h.2.1] at this
    exact Bool.noConfusion this
  have e := preStage_busy u i hni
  exact ⟨e, by rw [e]; exact h⟩

theorem first_pass (T : Int) (u : Unit) (i : Inputs) (hT : 1 ≤ T) (hu : Idle u)
    (hw : u.waitBeforeReset = false) (hb : Pressed i) (hm : map i.potValue 0 4095 1 100 = T) :
    InCycle T (preStage u i) ∧ (preStage u i).deliveredLiters = 0 ∧
    startsLeft T (preStage u i) = (T + 19) / 20 := by
  rw [preStage_idle_pressed u i hu hb, startFillingMix_go _ _ (by
    apply min_capacity_pos
    simp only
    omega), showProgress_eq, hm]
  refine ⟨⟨rfl, rfl, hw, le_refl _, by simp only; omega, rfl, ?_⟩, rfl, ?_⟩
  · simp
  · simp [startsLeft, hw]

theorem cycle_run (T : Int) (is : List Inputs) :
    ∀ (u : Unit) (i : Inputs) (v : Unit), InCycle T (preStage u i) →
      (∀ j ∈ i :: is, NoOverflow j) → atCooldown u (i :: is) = some v →
      (cycleStarts u (i :: is) : Int) = startsLeft T (preStage u i) ∧
      (cycleBatches u (i :: is)).sum = T - (preStage u i).deliveredLiters ∧
      CycleDone T v.waitStartTime v ∧
      ¬ cycleClamps u (i :: is) := by
  induction is with
  | nil =>
    intro u i v h hq hc
    obtain ⟨c1, c2, c3, c4, _⟩ := cycle_pass T u i h (hq i (List.mem_cons_self i []))
    simp only [atCooldown] at hc
    by_cases hw : (loop u i).waitBeforeReset = true
    · rw [if_pos hw] at hc
      have hv : loop u i = v := Option.some.inj hc
      rcases c1 with c1 | c1
      · rw [c1.2.2.1] at hw
        exact Bool.noConfusion hw
      · have hs : startsLeft T (loop u i) = 0 := by simp [startsLeft, hw]
        simp only [cycleStarts, cycleBatches, cycleClamps, hw, if_true, List.append_nil,
          Nat.add_zero, Bool.true_eq_false, false_and, or_false]
        rw [← hv]
        refine ⟨by omega, by rw [c1.2.2.2.1] at c3; omega, ?_, c4⟩
        rw [c1.2.2.2.2.2.2]
        exact c1
    · rw [if_neg hw] at hc
      exact Option.noConfusion hc
  | cons j js ih =>
    intro u i v h hq hc
    obtain ⟨c1, c2, c3, c4, _⟩ := cycle_pass T u i h (hq i (List.mem_cons_self i _))
    by_cases hw : (loop u i).waitBeforeReset = true
    · rw [atCooldown, if_pos hw] at hc
      have hv : loop u i = v := Option.some.inj hc
      rcases c1 with c1 | c1
      · rw [c1.2.2.1] at hw
        exact Bool.noConfusion hw
      · have hs : startsLeft T (loop u i) = 0 := by simp [startsLeft, hw]
        rw [cycleStarts, cycleBatches, cycleClamps]
        simp only [hw, if_true, List.append_nil, Nat.add_zero, Bool.true_eq_false, false_and,
          or_false]
        rw [← hv]
        refine ⟨by omega, by rw [c1.2.2.2.1] at c3; omega, ?_, c4⟩
        rw [c1.2.2.2.2.2.2]
        exact c1
    · rw [atCooldown, if_neg hw] at hc
      have hw2 : (loop u i).waitBeforeReset = false := by simpa using hw
      rcases c1 with c1 | c1
      · obtain ⟨e, h2⟩ := preStage_InCycle T (loop u i) j c1
        obtain ⟨r1, r2, r3, r4⟩ := ih (loop u i) j v h2
          (fun k hk => hq k (List.mem_cons_of_mem i hk)) hc
        have hs : startsLeft T (preStage (loop u i) j) = startsLeft T (loop u i) := by
          rw [e]
          rfl
        have hd : (preStage (loop u i) j).deliveredLiters = (loop u i).deliveredLiters := by
          rw [e]
        rw [cycleStarts, cycleBatches, cycleClamps]
        simp only [hw2, Bool.false_eq_true, if_false, List.sum_append, true_and]
        refine ⟨?_, ?_, r3, ?_⟩
        · push_cast
          omega
        · omega
        · rintro (hc1 | hc2)
          · exact c4 hc1
          · exact r4 hc2
      · rw [c1.2.2.1] at hw2
        exact Bool.noConfusion hw2

theorem ceil_div_capacity (T : Int) :
    ⌈(T : ℚ) / (MIX_TANK_CAPACITY : ℚ)⌉ = (T + 19) / 20 := by
  rw [Int.ceil_eq_iff]
  unfold MIX_TANK_CAPACITY
  constructor
  · rw [lt_div_iff₀ (by norm_num)]
    have h : ((T + 19) / 20 - 1) * 20 < T := by omega
    exact_mod_cast h
  · rw [div_le_iff₀ (by norm_num)]
    have h : T ≤ (T + 19) / 20 * 20 := by omega
    exact_mod_cast h

theorem deadlinePass_NoOverflow (u : Unit) : NoOverflow (deadlinePass u) := ⟨rfl, rfl⟩

theorem deadlinePasses_NoOverflow (n : Nat) :
    ∀ u : Unit, ∀ j ∈ deadlinePasses n u, NoOverflow j := by
  induction n with
  | zero =>
    intro u j hj
    simp [deadlinePasses] at hj
  | succ n ih =>
    intro u j hj
    rw [deadlinePasses] at hj
    rcases List.mem_cons.mp hj with hj | hj
    · rw [hj]
      exact deadlinePass_NoOverflow u
    · exact ih _ j hj

theorem deadline_run (T : Int) (n : Nat) :
    ∀ u : Unit, InCycle T u →
      2 * startsLeft T u + (if u.pumpRunning = true then 1 else 0) ≤ (n : Int) →
      (atCooldown u (deadlinePasses n u)).isSome = true := by
  induction n with
  | zero =>
    intro u h hn
    exfalso
    obtain ⟨h1, h2, h3, h4, h5, h6, h7⟩ := h
    cases hp : u.pumpRunning
    · rw [hp] at h7
      simp only [startsLeft, h3, h7, Bool.not_false, hp, Bool.false_eq_true, if_false,
        if_true] at hn
      omega
    · simp [hp] at hn
      rw [hp] at h7
      simp only [startsLeft, h3, h7, Bool.not_true, Bool.false_eq_true, if_false] at hn
      omega
  | succ n ih =>
    intro u h hn
    obtain ⟨e, h2⟩ := preStage_InCycle T u (deadlinePass u) h
    obtain ⟨c1, c2, _, _, c5⟩ := cycle_pass T u (deadlinePass u) h2 (deadlinePass_NoOverflow u)
    have hs : startsLeft T (preStage u (deadlinePass u)) = startsLeft T u := by
      rw [e]
      rfl
    rw [hs] at c2
    rcases c1 with c1 | c1
    · have hw := c1.2.2.1
      have hφ : 2 * startsLeft T (loop u (deadlinePass u)) +
          (if (loop u (deadlinePass u)).pumpRunning = true then 1 else 0) ≤ (n : Int) := by
        cases hf : u.fillingMix
        · have hp : u.pumpRunning = true := by
            have := h.2.2.2.2.2.2
            rw [hf] at this
            cases hp : u.pumpRunning
            · rw [hp] at this
              exact Bool.noConfusion this
            · rfl
          have e2 : fillStage (preStage u (deadlinePass u)) (deadlinePass u) =
              { u with needsDisplayUpdate := false } := by
            rw [fillStage_off _ _ (by rw [e]; exact hf), e]
          have hpc : pumpCompletes (fillStage (preStage u (deadlinePass u)) (deadlinePass u))
              (deadlinePass u) := by
            rw [e2]
            exact ⟨hp, Or.inl (le_refl _), rfl⟩
          have hps : pumpStarts u (deadlinePass u) = 0 := by
            unfold pumpStarts
            rw [if_neg]
            rintro ⟨hc, _⟩
            rw [e] at hc
            simp only at hc
            rw [hf] at hc
            exact Bool.noConfusion hc
          rw [c5 hpc]
          rw [hps] at c2
          simp only [hp, if_true] at hn
          simp only [Bool.false_eq_true, if_false]
          push_cast at hn c2
          omega
        · have hps : pumpStarts u (deadlinePass u) = 1 := by
            unfold pumpStarts
            rw [if_pos]
            rw [e]
            exact ⟨hf, Or.inl (le_refl _)⟩
          rw [hps] at c2
          have : (if u.pumpRunning = true then (1 : Int) else 0) ≥ 0 := by split <;> norm_num
          have : (if (loop u (deadlinePass u)).pumpRunning = true then (1 : Int) else 0) ≤ 1 := by
            split <;> norm_num
          push_cast at hn c2
          omega
      have r1 := ih (loop u (deadlinePass u)) c1 hφ
      rw [deadlinePasses, atCooldown]
      simp only [hw, Bool.false_eq_true, if_false]
      exact r1
    · have hw := c1.2.2.1
      rw [deadlinePasses, atCooldown]
      simp only [hw, if_true, Option.isSome_some]

theorem cycle_completes (T : Int) (u : Unit) (i : Inputs) (hT : 1 ≤ T) (hu : Idle u)
    (hw : u.waitBeforeReset = false) (hb : Pressed i) (hm : map i.potValue 0 4095 1 100 = T)
    (hq : NoOverflow i) :
    ∃ is : List Inputs, (∀ j ∈ is, NoOverflow j) ∧ (atCooldown u (i :: is)).isSome = true := by
  obtain ⟨f1, _, _⟩ := first_pass T u i hT hu hw hb hm
  obtain ⟨c1, _, _, _, _⟩ := cycle_pass T u i f1 hq
  rcases c1 with c1 | c1
  · refine ⟨deadlinePasses (2 * startsLeft T (loop u i) + 1).toNat (loop u i),
      deadlinePasses_NoOverflow _ _, ?_⟩
    rw [atCooldown]
    simp only [c1.2.2.1, Bool.false_eq_true, if_false]
    apply deadline_run T _ _ c1
    have : (if (loop u i).pumpRunning = true then (1 : Int) else 0) ≤ 1 := by
      split <;> norm_num
    omega
  · refine ⟨[], fun j hj => absurd hj (List.not_mem_nil j), ?_⟩
    rw [atCooldown]
    simp only [c1.2.2.1, if_true, Option.isSome_some]

/-- C1: a cycle started from idle by a confirmed press with the dial at `T`
liters (`1 ≤ T ≤ 100`) and run through passes in which no overflow sensor is
asserted enters the pump-to-drone phase exactly `⌈T / MIX_TANK_CAPACITY⌉` times
up to the pass that enters cooldown; and such a run into cooldown exists from
every such start. -/
theorem batch_cycles_eq_ceil (T : Int) (hT1 : 1 ≤ T) (_hT2 : T ≤ 100) :
    (∀ (u : Unit) (i : Inputs) (is : List Inputs),
      Idle u → u.waitBeforeReset = false → Pressed i → map i.potValue 0 4095 1 100 = T →
      (∀ j ∈ i :: is, NoOverflow j) → (atCooldown u (i :: is)).isSome = true →
      (cycleStarts u (i :: is) : Int) = ⌈(T : ℚ) / (MIX_TANK_CAPACITY : ℚ)⌉) ∧
    (∀ (u : Unit) (i : Inputs),
      Idle u → u.waitBeforeReset = false → Pressed i → map i.potValue 0 4095 1 100 = T →
      NoOverflow i →
      ∃ is : List Inputs, (∀ j ∈ is, NoOverflow j) ∧ (atCooldown u (i :: is)).isSome = true) := by
  refine ⟨?_, fun u i hu hw hb hm hq => cycle_completes T u i hT1 hu hw hb hm hq⟩
  intro u i is hu hw hb hm hq hc
  obtain ⟨v, hv⟩ := Option.isSome_iff_exists.mp hc
  obtain ⟨f1, _, f3⟩ := first_pass T u i hT1 hu hw hb hm
  obtain ⟨r1, _, _, _⟩ := cycle_run T is u i v f1 hq hv
  rw [r1, f3, ceil_div_capacity]

/-- C2: in a cycle started from idle with the dial at `T` liters (`1 ≤ T ≤ 100`)
and run without any overflow sensor asserted, the batches added to
`deliveredLiters` up to the pass that enters cooldown sum to exactly `T`, the
station enters cooldown with `deliveredLiters = targetLiters = T`, and no clamp
on the way changes the delivered volume; and such a run into cooldown exists. -/
theorem batches_sum_to_target (T : Int) (hT1 : 1 ≤ T) (_hT2 : T ≤ 100) :
    (∀ (u v : Unit) (i : Inputs) (is : List Inputs),
      Idle u → u.waitBeforeReset = false → Pressed i → map i.potValue 0 4095 1 100 = T →
      (∀ j ∈ i :: is, NoOverflow j) → atCooldown u (i :: is) = some v →
      (cycleBatches u (i :: is)).sum = T ∧ v.deliveredLiters = T ∧ v.targetLiters = T ∧
        v.waitBeforeReset = true ∧ ¬ cycleClamps u (i :: is)) ∧
    (∀ (u : Unit) (i : Inputs),
      Idle u → u.waitBeforeReset = false → Pressed i → map i.potValue 0 4095 1 100 = T →
      NoOverflow i →
      ∃ (is : List Inputs) (v : Unit),
        (∀ j ∈ is, NoOverflow j) ∧ atCooldown u (i :: is) = some v) := by
  constructor
  · intro u v i is hu hw hb hm hq hc
    obtain ⟨f1, f2, _⟩ := first_pass T u i hT1 hu hw hb hm
    obtain ⟨_, r2, r3, r4⟩ := cycle_run T is u i v f1 hq hc
    rw [f2] at r2
    exact ⟨by omega, r3.2.2.2.1, r3.1, r3.2.2.1, r4⟩
  · intro u i hu hw hb hm hq
    obtain ⟨is, h1, h2⟩ := cycle_completes T u i hT1 hu hw hb hm hq
    obtain ⟨v, hv⟩ := Option.isSome_iff_exists.mp h2
    exact ⟨is, v, h1, hv⟩

/-! ## The claims -/

theorem truncToInt_intCast (z : Int) : truncToInt (z : Rat) = z := by
  unfold truncToInt
  split <;> simp

theorem truncToInt_eq_of_nonneg {x : Rat} {z : Int} (h0 : 0 ≤ x) (h1 : (z : Rat) ≤ x)
    (h2 : x < z + 1) : truncToInt x = z := by
  unfold truncToInt
  rw [if_pos h0, Int.floor_eq_iff]
  exact ⟨h1, h2⟩

theorem colorFromProgress_zero : colorFromProgress 0 = (0, 0, 255) := by
  have h : truncToInt (255 : Rat) = 255 := truncToInt_intCast 255
  have h0 : truncToInt (0 : Rat) = 0 := truncToInt_intCast 0
  norm_num [colorFromProgress, constrain, lerp, h, h0]

theorem colorFromProgress_one : colorFromProgress 1 = (255, 0, 0) := by
  have h0 : truncToInt (0 : Rat) = 0 := truncToInt_intCast 0
  norm_num [colorFromProgress, constrain, lerp, h0]

theorem colorFromProgress_third : colorFromProgress (1 / 3) = (0, 254, 0) := by
  have h1 : truncToInt (lerp 0 255 ((1 / 3 - 3333 / 10000) / (3333 / 10000))) = 0 :=
    truncToInt_eq_of_nonneg (by norm_num [lerp]) (by norm_num [lerp]) (by norm_num [lerp])
  have h2 : truncToInt (lerp 255 128 ((1 / 3 - 3333 / 10000) / (3333 / 10000))) = 254 :=
    truncToInt_eq_of_nonneg (by norm_num [lerp]) (by norm_num [lerp]) (by norm_num [lerp])
  have hc : constrain (1 / 3 : Rat) 0 1 = 1 / 3 := by norm_num [constrain]
  simp only [colorFromProgress, hc, h1, h2]
  norm_num

theorem colorFromProgress_two_thirds : colorFromProgress (2 / 3) = (255, 127, 0) := by
  have h2 : truncToInt (lerp 128 0 ((2 / 3 - 6666 / 10000) / (3334 / 10000))) = 127 :=
    truncToInt_eq_of_nonneg (by norm_num [lerp]) (by norm_num [lerp]) (by norm_num [lerp])
  have hc : constrain (2 / 3 : Rat) 0 1 = 2 / 3 := by norm_num [constrain]
  simp only [colorFromProgress, hc, h2]
  norm_num

theorem colorFromProgress_first_breakpoint : colorFromProgress (3333 / 10000) = (0, 255, 0) := by
  have h : truncToInt (255 : Rat) = 255 := truncToInt_intCast 255
  have h0 : truncToInt (0 : Rat) = 0 := truncToInt_intCast 0
  norm_num [colorFromProgress, constrain, lerp, h, h0]

theorem colorFromProgress_second_breakpoint :
    colorFromProgress (6666 / 10000) = (255, 128, 0) := by
  have h : truncToInt (128 : Rat) = 128 := truncToInt_intCast 128
  norm_num [colorFromProgress, constrain, lerp, h]

/-- C9, counterexample: with exact arithmetic the mapper gives `(0,254,0)` at
progress 1/3 and `(255,127,0)` at progress 2/3, not the breakpoint colours. -/
theorem colorFromProgress_thirds_off_breakpoint :
    colorFromProgress (1 / 3) ≠ (0, 255, 0) ∧ colorFromProgress (2 / 3) ≠ (255, 128, 0) := by
  rw [colorFromProgress_third, colorFromProgress_two_thirds]
  decide

/-- C9, amended: the exact breakpoint colours are returned at the decimal
breakpoints of the code, `colorFromProgress(0.3333) = (0,255,0)` and
`colorFromProgress(0.6666) = (255,128,0)`; at 1/3 and 2/3 the green channel is one
step lower, `(0,254,0)` and `(255,127,0)`. -/
theorem colorFromProgress_breakpoints :
    colorFromProgress (3333 / 10000) = (0, 255, 0) ∧
    colorFromProgress (6666 / 10000) = (255, 128, 0) ∧
    colorFromProgress (1 / 3) = (0, 254, 0) ∧
    colorFromProgress (2 / 3) = (255, 127, 0) :=
  ⟨colorFromProgress_first_breakpoint, colorFromProgress_second_breakpoint,
   colorFromProgress_third, colorFromProgress_two_thirds⟩

/-- C10: `colorFromProgress(0) = (0,0,255)`, `colorFromProgress(1) = (255,0,0)`,
every `p < 0` gives the triple of `p = 0` and every `p > 1` the triple of `p = 1`. -/
theorem colorFromProgress_endpoints_clamp :
    colorFromProgress 0 = (0, 0, 255) ∧
    colorFromProgress 1 = (255, 0, 0) ∧
    (∀ p : Rat, p < 0 → colorFromProgress p = colorFromProgress 0) ∧
    (∀ p : Rat, 1 < p → colorFromProgress p = colorFromProgress 1) := by
  refine ⟨colorFromProgress_zero, colorFromProgress_one, ?_, ?_⟩
  · intro p hp
    have h1 : constrain p 0 1 = 0 := by simp [constrain, hp]
    have h2 : constrain (0 : Rat) 0 1 = 0 := by norm_num [constrain]
    simp only [colorFromProgress, h1, h2]
  · intro p hp
    have h1 : constrain p 0 1 = 1 := by
      have : ¬ p < 0 := by linarith
      simp [constrain, hp, this]
    have h2 : constrain (1 : Rat) 0 1 = 1 := by norm_num [constrain]
    simp only [colorFromProgress, h1, h2]

/-- C10, witness: progress -1/2 shows blue and progress 3/2 shows red. -/
theorem colorFromProgress_endpoints_clamp_witness :
    colorFromProgress (-1 / 2) = (0, 0, 255) ∧ colorFromProgress (3 / 2) = (255, 0, 0) :=
  ⟨(colorFromProgress_endpoints_clamp.2.2.1 (-1 / 2) (by norm_num)).trans
      colorFromProgress_endpoints_clamp.1,
   (colorFromProgress_endpoints_clamp.2.2.2 (3 / 2) (by norm_num)).trans
      colorFromProgress_endpoints_clamp.2.1⟩

/-- C1, witness: the 45-liter run from the initial station enters the pump phase
three times. -/
theorem batch_cycles_eq_ceil_witness : cycleStarts setupUnitIO cycle45 = 3 := by
  have h := (batch_cycles_eq_ceil 45 (by norm_num) (by norm_num)).1 setupUnitIO
    (quietPass 0 1820 LOW) (cycle45.tail) (by decide) rfl (by decide) (by decide) (by decide)
    (by decide)
  rw [ceil_div_capacity] at h
  exact_mod_cast h

/-- C2, witness: the batches of the 45-liter run from the initial station sum to 45. -/
theorem batches_sum_to_target_witness : (cycleBatches setupUnitIO cycle45).sum = 45 := by
  obtain ⟨v, hv⟩ := Option.isSome_iff_exists.mp
    (show (atCooldown setupUnitIO cycle45).isSome = true by decide)
  exact ((batches_sum_to_target 45 (by norm_num) (by norm_num)).1 setupUnitIO v
    (quietPass 0 1820 LOW) (cycle45.tail) (by decide) rfl (by decide) (by decide) (by decide)
    hv).1

/-- C3: from any station with `pumpRunning` set, a pass in which the drone-tank
sensor reads HIGH ends with `deliveredLiters = targetLiters` (the target itself
unchanged), `pumpRunning` cleared, the transfer pump relay off (HIGH), status
line 2 equal to "filled in ", the indicator red and `waitBeforeReset` set with
`waitStartTime = now`, whatever the deadline `pumpStopTime` and the time are; when
no fill phase was active none is started: `fillingMix` stays false, `batchLiters`
is unchanged and the mix pump and valve outputs are untouched. -/
theorem drone_overflow_aborts (s : Unit) (i : Inputs) (hp : s.pumpRunning = true)
    (ho : i.moisture = HIGH) :
    (loop s i).deliveredLiters = (loop s i).targetLiters ∧
    (loop s i).targetLiters = s.targetLiters ∧
    (loop s i).pumpRunning = false ∧
    (loop s i).relayLevel = HIGH ∧
    (loop s i).statusLine2 = "filled in " ∧
    (loop s i).waitBeforeReset = true ∧
    (loop s i).waitStartTime = i.now ∧
    (loop s i).ledR = 255 ∧ (loop s i).ledG = 0 ∧ (loop s i).ledB = 0 ∧
    (s.fillingMix = false →
      (loop s i).fillingMix = false ∧ (loop s i).batchLiters = s.batchLiters ∧
      (loop s i).pumpMixLevel = s.pumpMixLevel ∧ (loop s i).valveALevel = s.valveALevel ∧
      (loop s i).valveBLevel = s.valveBLevel) := by
  have hni : ¬ Idle s := fun hc => by rw [hc.2.1] at hp; exact Bool.noConfusion hp
  have e1 : preStage s i = { s with needsDisplayUpdate := false } := preStage_busy s i hni
  have hp2 : (fillStage (preStage s i) i).pumpRunning = true :=
    fillStage_pumpRunning_of _ i (by rw [e1]; exact hp)
  have e3 : pumpStage (fillStage (preStage s i) i) i =
      pumpFinish (pumpShow (fillStage (preStage s i) i) i) i :=
    pumpStage_exit _ i hp2 (Or.inr ho)
  have e4 := pumpFinish_overflow (pumpShow (fillStage (preStage s i) i) i) i ho
  have e5 : loop s i = pumpFinish (pumpShow (fillStage (preStage s i) i) i) i := by
    unfold loop phaseStage
    rw [e3]
    apply cooldownStage_dwell
    rw [e4]
    simp only [subU32_self]
    norm_num
  rw [e5, e4]
  refine ⟨rfl, ?_, rfl, rfl, rfl, rfl, rfl, rfl, rfl, rfl, ?_⟩
  · simp only [pumpShow_eq, fillStage_targetLiters, e1]
  · intro hf
    have e2 : fillStage (preStage s i) i = { s with needsDisplayUpdate := false } := by
      rw [fillStage_off _ i (by rw [e1]; exact hf), e1]
    simp only [pumpShow_eq, e2, and_true]
    exact hf

/-- C3, witness: the drone sensor trips 200 ms before the deadline of a one-liter
batch, and again 100 ms after it. -/
theorem drone_overflow_aborts_witness :
    ((loop pumpingStation (overflowPass 400)).deliveredLiters = 1 ∧
      (loop pumpingStation (overflowPass 400)).statusLine2 = "filled in ") ∧
    ((loop pumpingStation (overflowPass 700)).deliveredLiters = 1 ∧
      (loop pumpingStation (overflowPass 700)).statusLine2 = "filled in ") := by
  have h1 := drone_overflow_aborts pumpingStation (overflowPass 400) (by decide) rfl
  have h2 := drone_overflow_aborts pumpingStation (overflowPass 700) (by decide) rfl
  have t1 : (loop pumpingStation (overflowPass 400)).targetLiters = 1 := by
    rw [h1.2.1]
    decide
  have t2 : (loop pumpingStation (overflowPass 700)).targetLiters = 1 := by
    rw [h2.2.1]
    decide
  exact ⟨⟨by rw [h1.1, t1], h1.2.2.2.2.1⟩, ⟨by rw [h2.1, t2], h2.2.2.2.2.1⟩⟩

/-- C4: in every station reached from `setupUnitIO` by passes of `loop()` whose
potentiometer readings lie in 0..4095 (all other readings arbitrary), at most one
of `fillingMix`, `pumpRunning`, `waitBeforeReset` is set, and `readyToStart` is set
only when all three are clear. -/
theorem phase_flags_exclusive (is : List Inputs) (h : ∀ i ∈ is, PotInRange i) :
    PhaseOK (run setupUnitIO is) :=
  run_PhaseOK is _ h setup_PhaseOK

/-- C4, witness: the flags after the 45-liter run. -/
theorem phase_flags_exclusive_witness : PhaseOK (run setupUnitIO cycle45) :=
  phase_flags_exclusive cycle45 (by decide)

/-- C5, counterexample: after a completed two-liter cycle the dial is turned down
to one liter; no sensor was ever asserted, yet `deliveredLiters = 2` exceeds
`targetLiters = 1` in the idle station. -/
theorem delivered_exceeds_target_in_idle :
    (∀ i ∈ dialDownRun, PotInRange i ∧ i.moisture = LOW) ∧
    (run setupUnitIO dialDownRun).readyToStart = true ∧
    (run setupUnitIO dialDownRun).deliveredLiters = 2 ∧
    (run setupUnitIO dialDownRun).targetLiters = 1 ∧
    ¬ ((run setupUnitIO dialDownRun).deliveredLiters ≤ (run setupUnitIO dialDownRun).targetLiters) := by
  decide

/-- C5, amended: in every station reached from `setupUnitIO` by passes whose
potentiometer readings lie in 0..4095 and in which the drone-tank sensor is never
asserted, `0 ≤ deliveredLiters`, and `deliveredLiters ≤ targetLiters` whenever
`readyToStart` is clear (fill phase, pump phase and cooldown). -/
theorem delivered_within_target (is : List Inputs)
    (h : ∀ i ∈ is, PotInRange i ∧ i.moisture = LOW) :
    0 ≤ (run setupUnitIO is).deliveredLiters ∧
    ((run setupUnitIO is).readyToStart = false →
      (run setupUnitIO is).deliveredLiters ≤ (run setupUnitIO is).targetLiters) := by
  have h2 := run_LitersOK is _ (fun i hi => (h i hi).1) setup_LitersOK
  exact ⟨h2.2.1, h2.2.2.2⟩

/-- C5, witness of the amended statement: the station in the middle of the
45-liter run. -/
theorem delivered_within_target_witness :
    0 ≤ (run setupUnitIO (cycle45.take 4)).deliveredLiters ∧
    (run setupUnitIO (cycle45.take 4)).deliveredLiters ≤
      (run setupUnitIO (cycle45.take 4)).targetLiters :=
  ⟨(delivered_within_target (cycle45.take 4) (by decide)).1,
   (delivered_within_target (cycle45.take 4) (by decide)).2 (by decide)⟩

/-- C7, the code at a failing input: 50 ms after the deadline 600 of the pump
phase the liters-remaining expression is 14316557, not 0, and the pass stores it
in `currentLiters` although `batchLiters` is 1. -/
theorem remainingLiters_after_deadline :
    remainingLiters 600 650 = 14316557 ∧
    pumpingStation.pumpRunning = true ∧
    pumpingStation.pumpStopTime = 600 ∧
    (loop pumpingStation (quietPass 650 0 HIGH)).currentLiters = 14316557 ∧
    (loop pumpingStation (quietPass 650 0 HIGH)).batchLiters = 1 := by
  decide

/-- C8, the code at a failing input: a one-liter cycle started at
`millis() = 4294967295` stores the deadline 299, which is earlier than the start;
the tests `millis() >= pumpStopTime` of the same pass succeed at once and the whole
cycle is accounted as delivered within that pass. -/
theorem deadline_wraps_before_start :
    (preStage setupUnitIO (quietPass 4294967295 0 LOW)).fillingMix = true ∧
    (preStage setupUnitIO (quietPass 4294967295 0 LOW)).batchLiters = 1 ∧
    (preStage setupUnitIO (quietPass 4294967295 0 LOW)).pumpStopTime = 299 ∧
    (startPumpingDrone pumpingStation 4294967295).pumpStopTime = 299 ∧
    (loop setupUnitIO (quietPass 4294967295 0 LOW)).deliveredLiters = 1 ∧
    (loop setupUnitIO (quietPass 4294967295 0 LOW)).waitBeforeReset = true := by
  decide

/-! ## Fields that a block leaves alone -/

theorem pumpFinish_targetLiters (u : Unit) (i : Inputs) :
    (pumpFinish u i).targetLiters = u.targetLiters := by
  by_cases ho : i.moisture = HIGH
  · rw [pumpFinish_overflow u i ho]
  · have ho2 := bool_eq_LOW_of_ne_HIGH ho
    by_cases hd : u.deliveredLiters + u.batchLiters ≥ u.targetLiters
    · rw [pumpFinish_done u i ho2 hd]
    · rw [pumpFinish_repeat u i ho2 (not_le.mp hd)]
      by_cases hb : min MIX_TANK_CAPACITY
          (u.targetLiters - (u.deliveredLiters + u.batchLiters)) ≤ 0
      · rw [startFillingMix_skip _ _ hb]
      · rw [startFillingMix_go _ _ (not_le.mp hb), showProgress_eq]

theorem pumpStage_targetLiters (u : Unit) (i : Inputs) :
    (pumpStage u i).targetLiters = u.targetLiters := by
  rcases pumpStage_cases u i with ⟨_, e⟩ | ⟨_, _, _, e⟩ | ⟨_, _, e⟩ | ⟨_, _, _, e⟩ <;> rw [e]
  · rw [pumpShow_eq]
  · rw [pumpFinish_targetLiters, pumpShow_eq]
  · rw [pumpFinish_targetLiters, pumpShow_eq]

theorem cooldownStage_targetLiters (u : Unit) (i : Inputs) :
    (cooldownStage u i).targetLiters = u.targetLiters := by
  rcases cooldownStage_cases u i with e | ⟨_, _, e⟩ <;> rw [e]

theorem phaseStage_targetLiters (u : Unit) (i : Inputs) :
    (phaseStage u i).targetLiters = u.targetLiters := by
  unfold phaseStage
  rw [cooldownStage_targetLiters, pumpStage_targetLiters, fillStage_targetLiters]

theorem startFillingMix_batchLiters (u : Unit) (now : Nat) :
    (startFillingMix u now).batchLiters =
      min MIX_TANK_CAPACITY (u.targetLiters - u.deliveredLiters) := by
  by_cases hb : min MIX_TANK_CAPACITY (u.targetLiters - u.deliveredLiters) ≤ 0
  · rw [startFillingMix_skip _ _ hb]
  · rw [startFillingMix_go _ _ (not_le.mp hb), showProgress_eq]

theorem startFillingMix_targetLiters (u : Unit) (now : Nat) :
    (startFillingMix u now).targetLiters = u.targetLiters := by
  by_cases hb : min MIX_TANK_CAPACITY (u.targetLiters - u.deliveredLiters) ≤ 0
  · rw [startFillingMix_skip _ _ hb]
  · rw [startFillingMix_go _ _ (not_le.mp hb), showProgress_eq]

theorem preStage_targetLiters_idle (u : Unit) (i : Inputs) (h : Idle u) :
    (preStage u i).targetLiters = map i.potValue 0 4095 1 100 := by
  by_cases hb : Pressed i
  · rw [preStage_idle_pressed u i h hb, startFillingMix_targetLiters]
  · rw [preStage_idle_released u i h hb]

/-- The phase blocks read only the time and the two sensors. -/
theorem phaseStage_congr (u : Unit) (i j : Inputs) (h1 : i.now = j.now)
    (h2 : i.mixMoisture = j.mixMoisture) (h3 : i.moisture = j.moisture) :
    phaseStage u i = phaseStage u j := by
  have e : phaseStage u i = phaseStage u
      { now := i.now, potValue := j.potValue, startBtn := j.startBtn,
        startBtnConfirm := j.startBtnConfirm, mixMoisture := i.mixMoisture,
        moisture := i.moisture, switchLastState := j.switchLastState,
        switchBtn := j.switchBtn } := rfl
  rw [e, h1, h2, h3]

theorem PhaseOK_wait {u : Unit} (h : PhaseOK u) (hw : u.waitBeforeReset = true) :
    u.fillingMix = false ∧ u.pumpRunning = false ∧ u.readyToStart = false := by
  obtain ⟨_, h2, h3, h4⟩ := h
  refine ⟨?_, ?_, ?_⟩
  · cases hf : u.fillingMix
    · rfl
    · exact absurd ⟨hf, hw⟩ h2
  · cases hp : u.pumpRunning
    · rfl
    · exact absurd ⟨hp, hw⟩ h3
  · cases hr : u.readyToStart
    · rfl
    · have := (h4 hr).2.2
      rw [hw] at this
      exact Bool.noConfusion this

theorem PhaseOK_pump {u : Unit} (h : PhaseOK u) (hp : u.pumpRunning = true) :
    u.fillingMix = false ∧ u.waitBeforeReset = false ∧ u.readyToStart = false := by
  obtain ⟨h1, _, h3, h4⟩ := h
  refine ⟨?_, ?_, ?_⟩
  · cases hf : u.fillingMix
    · rfl
    · exact absurd ⟨hf, hp⟩ h1
  · cases hw : u.waitBeforeReset
    · rfl
    · exact absurd ⟨hp, hw⟩ h3
  · cases hr : u.readyToStart
    · rfl
    · have := (h4 hr).2.1
      rw [hp] at this
      exact Bool.noConfusion this

theorem PhaseOK_fill {u : Unit} (h : PhaseOK u) (hf : u.fillingMix = true) :
    u.pumpRunning = false ∧ u.waitBeforeReset = false ∧ u.readyToStart = false := by
  obtain ⟨h1, h2, _, h4⟩ := h
  refine ⟨?_, ?_, ?_⟩
  · cases hp : u.pumpRunning
    · rfl
    · exact absurd ⟨hf, hp⟩ h1
  · cases hw : u.waitBeforeReset
    · rfl
    · exact absurd ⟨hf, hw⟩ h2
  · cases hr : u.readyToStart
    · rfl
    · have := (h4 hr).1
      rw [hf] at this
      exact Bool.noConfusion this

theorem not_idle_of_not_ready {u : Unit} (h : u.readyToStart = false) : ¬ Idle u := fun hc => by
  have := hc.2.2
  rw [h] at this
  exact Bool.noConfusion this

/-- C13: for every station in cooldown (`waitBeforeReset` set, the flags
constrained as in the data model), a pass with `now - waitStartTime >= 1000` in
32-bit arithmetic sets `readyToStart`, clears `waitBeforeReset`, `fillingMix` and
`pumpRunning`, sets `needsDisplayUpdate`, sets status line 2 to "ready again" and
writes the indicator off; a pass with `now - waitStartTime < 1000` leaves
`readyToStart` clear and `waitBeforeReset` set, starts no phase whatever the
button reads, and changes neither the liters counters nor `waitStartTime`. -/
theorem cooldown_dwell_then_ready (s : Unit) (i : Inputs) (hs : PhaseOK s)
    (hw : s.waitBeforeReset = true) :
    (subU32 i.now s.waitStartTime ≥ 1000 →
      (loop s i).readyToStart = true ∧ (loop s i).waitBeforeReset = false ∧
      (loop s i).fillingMix = false ∧ (loop s i).pumpRunning = false ∧
      (loop s i).needsDisplayUpdate = true ∧ (loop s i).statusLine2 = "ready again" ∧
      (loop s i).ledR = 0 ∧ (loop s i).ledG = 0 ∧ (loop s i).ledB = 0) ∧
    (subU32 i.now s.waitStartTime < 1000 →
      (loop s i).readyToStart = false ∧ (loop s i).waitBeforeReset = true ∧
      (loop s i).fillingMix = false ∧ (loop s i).pumpRunning = false ∧
      (loop s i).deliveredLiters = s.deliveredLiters ∧
      (loop s i).targetLiters = s.targetLiters ∧
      (loop s i).waitStartTime = s.waitStartTime) := by
  obtain ⟨hf, hp, hr⟩ := PhaseOK_wait hs hw
  have e1 : preStage s i = { s with needsDisplayUpdate := false } :=
    preStage_busy s i (not_idle_of_not_ready hr)
  have e2 : fillStage (preStage s i) i = { s with needsDisplayUpdate := false } := by
    rw [fillStage_off _ i (by rw [e1]; exact hf), e1]
  have e3 : pumpStage (fillStage (preStage s i) i) i = { s with needsDisplayUpdate := false } := by
    rw [pumpStage_off _ i (by rw [e2]; exact hp), e2]
  constructor
  · intro ht
    have e4 : loop s i = _ := cooldownStage_done (pumpStage (fillStage (preStage s i) i) i) i
      (by rw [e3]; exact hw) (by rw [e3]; exact ht)
    rw [e4]
    exact ⟨rfl, rfl, rfl, rfl, rfl, rfl, rfl, rfl, rfl⟩
  · intro ht
    have e4 : loop s i = pumpStage (fillStage (preStage s i) i) i :=
      cooldownStage_dwell _ i (by rw [e3]; exact ht)
    rw [e4, e3]
    exact ⟨hr, hw, hf, hp, rfl, rfl, rfl⟩

theorem not_idle_of_busy {u : Unit}
    (h : u.readyToStart = false ∨ u.fillingMix = true ∨ u.pumpRunning = true) : ¬ Idle u := by
  rintro ⟨h1, h2, h3⟩
  rcases h with h | h | h
  · rw [h3] at h
    exact Bool.noConfusion h
  · rw [h1] at h
    exact Bool.noConfusion h
  · rw [h2] at h
    exact Bool.noConfusion h

/-- C14: when `readyToStart` is clear or a phase flag (`fillingMix`, `pumpRunning`)
is set, a pass ends in the same station whatever the two reads of the start button
are, all other readings being the same; the button block of lines 317-327 changes
nothing, so `deliveredLiters` is not reset and `fillingMix` is not set by it. -/
theorem start_button_ignored_unless_ready (s : Unit) (i : Inputs) (b1 b2 : Bool)
    (hs : s.readyToStart = false ∨ s.fillingMix = true ∨ s.pumpRunning = true) :
    loop s { i with startBtn := b1, startBtnConfirm := b2 } = loop s i ∧
    startStage (idleStage (displayStage s i) i) { i with startBtn := b1, startBtnConfirm := b2 } =
      idleStage (displayStage s i) i ∧
    (preStage s { i with startBtn := b1, startBtnConfirm := b2 }).deliveredLiters =
      s.deliveredLiters ∧
    (preStage s { i with startBtn := b1, startBtnConfirm := b2 }).fillingMix = s.fillingMix := by
  have hn : ¬ Idle s := not_idle_of_busy hs
  have e1 := preStage_busy s i hn
  have e2 := preStage_busy s { i with startBtn := b1, startBtnConfirm := b2 } hn
  have hd : ¬ Idle (idleStage (displayStage s i) i) := by
    rw [idleStage_not_idle _ i (by rw [displayStage_eq]; exact hn), displayStage_eq]
    exact hn
  refine ⟨?_, ?_, ?_, ?_⟩
  · unfold loop
    rw [e1, e2]
    exact phaseStage_congr _ _ i rfl rfl rfl
  · exact startStage_skip _ _ (fun hc => hd hc.1)
  · rw [e2]
  · rw [e2]

/-- C14, witness: during the pump phase of a one-liter cycle a pressed button and a
released button give the same station. -/
theorem start_button_ignored_unless_ready_witness :
    loop pumpingStation (quietPass 400 0 LOW) = loop pumpingStation (quietPass 400 0 HIGH) :=
  ((start_button_ignored_unless_ready pumpingStation (quietPass 400 0 HIGH) LOW LOW
    (Or.inl (by decide))).1 : _)

/-- C13, witness: the station that entered cooldown at 600 is still waiting at
1550, with the button pressed, and ready at 1600. -/
theorem cooldown_dwell_then_ready_witness :
    (loop cooldownStation (quietPass 1550 0 LOW)).readyToStart = false ∧
    (loop cooldownStation (quietPass 1600 0 LOW)).readyToStart = true ∧
    (loop cooldownStation (quietPass 1600 0 LOW)).statusLine2 = "ready again" := by
  have hs : PhaseOK cooldownStation := run_PhaseOK _ _ (by decide) setup_PhaseOK
  have hw : cooldownStation.waitBeforeReset = true := by decide
  have h1 := (cooldown_dwell_then_ready cooldownStation (quietPass 1550 0 LOW) hs hw).2
    (by decide)
  have h2 := (cooldown_dwell_then_ready cooldownStation (quietPass 1600 0 LOW) hs hw).1
    (by decide)
  exact ⟨h1.1, h2.1, h2.2.2.2.2.2.1⟩

/-- C15: for every potentiometer reading `r` in 0..4095 a pass from an idle station
(no phase active, `readyToStart` set) ends with `targetLiters = r * 99 / 4095 + 1`
in integer division; that value lies in 1..100, is non-decreasing in `r`, is 1 at
`r = 0` and 100 at `r = 4095`. -/
theorem idle_target_follows_dial (s : Unit) (i : Inputs) (hs : Idle s) (hr : PotInRange i) :
    (loop s i).targetLiters = i.potValue * 99 / 4095 + 1 ∧
    1 ≤ (loop s i).targetLiters ∧ (loop s i).targetLiters ≤ 100 ∧
    (∀ j : Inputs, PotInRange j → i.potValue ≤ j.potValue →
      (loop s i).targetLiters ≤ (loop s j).targetLiters) ∧
    (i.potValue = 0 → (loop s i).targetLiters = 1) ∧
    (i.potValue = 4095 → (loop s i).targetLiters = 100) := by
  have e : ∀ j : Inputs, PotInRange j → (loop s j).targetLiters = j.potValue * 99 / 4095 + 1 := by
    intro j hj
    unfold loop
    rw [phaseStage_targetLiters, preStage_targetLiters_idle s j hs, map_pot _ hj.1]
  obtain ⟨h0, h1⟩ := hr
  rw [e i ⟨h0, h1⟩]
  refine ⟨rfl, by omega, by omega, ?_, ?_, ?_⟩
  · intro j hj hij
    rw [e j hj]
    obtain ⟨_, _⟩ := hj
    omega
  · intro h
    rw [h]
    norm_num
  · intro h
    rw [h]
    norm_num

/-- C15, witness: from the initial station the dial at 0, 2047 and 4095 gives
1, 50 and 100 liters. -/
theorem idle_target_follows_dial_witness :
    (loop setupUnitIO (quietPass 0 0 HIGH)).targetLiters = 1 ∧
    (loop setupUnitIO (quietPass 0 2047 HIGH)).targetLiters = 50 ∧
    (loop setupUnitIO (quietPass 0 4095 HIGH)).targetLiters = 100 :=
  ⟨(idle_target_follows_dial setupUnitIO (quietPass 0 0 HIGH) (by decide) (by decide)).2.2.2.2.1
      rfl,
   (idle_target_follows_dial setupUnitIO (quietPass 0 2047 HIGH) (by decide) (by decide)).1,
   (idle_target_follows_dial setupUnitIO (quietPass 0 4095 HIGH) (by decide)
      (by decide)).2.2.2.2.2 rfl⟩

theorem startFillingMix_BatchOK (u : Unit) (now : Nat) : BatchOK (startFillingMix u now) := by
  unfold BatchOK
  rw [startFillingMix_batchLiters]
  exact min_le_left _ _

theorem preStage_BatchOK (u : Unit) (i : Inputs) (h : BatchOK u) : BatchOK (preStage u i) := by
  by_cases hi : Idle u
  · by_cases hb : Pressed i
    · rw [preStage_idle_pressed u i hi hb]
      exact startFillingMix_BatchOK _ _
    · rw [preStage_idle_released u i hi hb]
      exact h
  · rw [preStage_busy u i hi]
    exact h

theorem fillStage_BatchOK (u : Unit) (i : Inputs) (h : BatchOK u) : BatchOK (fillStage u i) := by
  rcases fillStage_cases u i with ⟨_, e⟩ | ⟨_, _, _, e⟩ | ⟨_, _, e⟩ <;> rw [e]
  · exact h
  · rw [fillShow_eq]
    exact h
  · rw [startPumpingDrone_eq, showProgress_eq, stopFillingMix_eq, fillShow_eq]
    unfold BatchOK at h ⊢
    simp only
    split
    · exact le_refl _
    · exact h

theorem pumpFinish_BatchOK (u : Unit) (i : Inputs) (h : BatchOK u) : BatchOK (pumpFinish u i) := by
  by_cases ho : i.moisture = HIGH
  · rw [pumpFinish_overflow u i ho]
    exact h
  · have ho2 := bool_eq_LOW_of_ne_HIGH ho
    by_cases hd : u.deliveredLiters + u.batchLiters ≥ u.targetLiters
    · rw [pumpFinish_done u i ho2 hd]
      exact h
    · rw [pumpFinish_repeat u i ho2 (not_le.mp hd)]
      exact startFillingMix_BatchOK _ _

theorem pumpStage_BatchOK (u : Unit) (i : Inputs) (h : BatchOK u) : BatchOK (pumpStage u i) := by
  have hs : BatchOK (pumpShow u i) := by
    rw [pumpShow_eq]
    exact h
  rcases pumpStage_cases u i with ⟨_, e⟩ | ⟨_, _, _, e⟩ | ⟨_, _, e⟩ | ⟨_, _, _, e⟩ <;> rw [e]
  · exact h
  · exact hs
  · exact pumpFinish_BatchOK _ i hs
  · exact pumpFinish_BatchOK _ i hs

theorem cooldownStage_BatchOK (u : Unit) (i : Inputs) (h : BatchOK u) :
    BatchOK (cooldownStage u i) := by
  rcases cooldownStage_cases u i with e | ⟨_, _, e⟩ <;> rw [e]
  · exact h
  · exact h

theorem loop_BatchOK (u : Unit) (i : Inputs) (h : BatchOK u) : BatchOK (loop u i) :=
  cooldownStage_BatchOK _ i (pumpStage_BatchOK _ i (fillStage_BatchOK _ i (preStage_BatchOK u i h)))

theorem run_BatchOK (is : List Inputs) (u : Unit) (h : BatchOK u) : BatchOK (run u is) := by
  induction is generalizing u with
  | nil => exact h
  | cons i is ih => exact ih (loop u i) (loop_BatchOK u i h)

theorem setup_BatchOK : BatchOK setupUnitIO := by
  unfold BatchOK
  decide

/-- C16: in every station reached from `setupUnitIO` by passes of `loop()`, with any
readings, `batchLiters <= MIX_TANK_CAPACITY = 20`; and whenever `startFillingMix`
computes the batch, on any station at any time, it is
`min(20, targetLiters - deliveredLiters)` of the station it was called on, hence at
most 20 and at most `targetLiters - deliveredLiters`. -/
theorem batch_within_capacity :
    (∀ is : List Inputs, (run setupUnitIO is).batchLiters ≤ MIX_TANK_CAPACITY) ∧
    MIX_TANK_CAPACITY = 20 ∧
    (∀ (u : Unit) (now : Nat),
      (startFillingMix u now).batchLiters = min 20 (u.targetLiters - u.deliveredLiters) ∧
      (startFillingMix u now).batchLiters ≤ 20 ∧
      (startFillingMix u now).batchLiters ≤ u.targetLiters - u.deliveredLiters ∧
      (startFillingMix u now).targetLiters = u.targetLiters ∧
      (startFillingMix u now).deliveredLiters = u.deliveredLiters) := by
  refine ⟨fun is => run_BatchOK is _ setup_BatchOK, rfl, ?_⟩
  intro u now
  have hb := startFillingMix_batchLiters u now
  have hd : (startFillingMix u now).deliveredLiters = u.deliveredLiters := by
    by_cases hb : min MIX_TANK_CAPACITY (u.targetLiters - u.deliveredLiters) ≤ 0
    · rw [startFillingMix_skip _ _ hb]
    · rw [startFillingMix_go _ _ (not_le.mp hb), showProgress_eq]
  rw [hb]
  exact ⟨rfl, min_le_left _ _, min_le_right _ _, startFillingMix_targetLiters u now, hd⟩

theorem loop_pump_phase (s : Unit) (i : Inputs) (hs : PhaseOK s) (hp : s.pumpRunning = true) :
    loop s i = cooldownStage (pumpStage { s with needsDisplayUpdate := false } i) i := by
  obtain ⟨hf, _, hr⟩ := PhaseOK_pump hs hp
  have e1 : preStage s i = { s with needsDisplayUpdate := false } :=
    preStage_busy s i (not_idle_of_not_ready hr)
  unfold loop phaseStage
  rw [e1, fillStage_off _ i
    (show ({ s with needsDisplayUpdate := false } : Unit).fillingMix = false from hf)]

/-- C17: for every station in the pump phase (`pumpRunning` set, the flags
constrained as in the data model) and every pass in which the drone-tank sensor is
not asserted: when `now >= pumpStopTime` and
`deliveredLiters + batchLiters < targetLiters` the pass switches the transfer pump
off, sets `deliveredLiters` to `deliveredLiters + batchLiters` and re-enters the fill
phase with `batchLiters = min(20, targetLiters - new deliveredLiters)`, valves open
and mix pump on; when `now >= pumpStopTime` and
`deliveredLiters + batchLiters >= targetLiters` it sets `deliveredLiters` to
`targetLiters`, status line 2 to "pump off ", writes the indicator off and enters
cooldown; when `now < pumpStopTime` it leaves `deliveredLiters`, `batchLiters`,
`pumpStopTime`, `pumpRunning` and the relay unchanged. -/
theorem pump_deadline_transitions (s : Unit) (i : Inputs) (hs : PhaseOK s)
    (hp : s.pumpRunning = true) (ho : i.moisture = LOW) :
    (i.now ≥ s.pumpStopTime → s.deliveredLiters + s.batchLiters < s.targetLiters →
      (loop s i).relayLevel = HIGH ∧ (loop s i).pumpRunning = false ∧
      (loop s i).deliveredLiters = s.deliveredLiters + s.batchLiters ∧
      (loop s i).fillingMix = true ∧
      (loop s i).batchLiters =
        min 20 (s.targetLiters - (s.deliveredLiters + s.batchLiters)) ∧
      (loop s i).pumpMixLevel = LOW ∧ (loop s i).valveALevel = LOW ∧
      (loop s i).valveBLevel = LOW ∧
      (loop s i).pumpStopTime = addU32 i.now (toU32 ((loop s i).batchLiters * MS_PER_LITER)) ∧
      (loop s i).waitBeforeReset = false ∧ (loop s i).targetLiters = s.targetLiters) ∧
    (i.now ≥ s.pumpStopTime → s.deliveredLiters + s.batchLiters ≥ s.targetLiters →
      (loop s i).deliveredLiters = s.targetLiters ∧ (loop s i).targetLiters = s.targetLiters ∧
      (loop s i).statusLine2 = "pump off " ∧
      (loop s i).ledR = 0 ∧ (loop s i).ledG = 0 ∧ (loop s i).ledB = 0 ∧
      (loop s i).waitBeforeReset = true ∧ (loop s i).waitStartTime = i.now ∧
      (loop s i).pumpRunning = false ∧ (loop s i).relayLevel = HIGH ∧
      (loop s i).fillingMix = false) ∧
    (i.now < s.pumpStopTime →
      (loop s i).deliveredLiters = s.deliveredLiters ∧ (loop s i).batchLiters = s.batchLiters ∧
      (loop s i).pumpStopTime = s.pumpStopTime ∧ (loop s i).pumpRunning = true ∧
      (loop s i).relayLevel = s.relayLevel) := by
  obtain ⟨hf, hw, _⟩ := PhaseOK_pump hs hp
  have e0 := loop_pump_phase s i hs hp
  refine ⟨?_, ?_, ?_⟩
  · intro ht hd
    have e1 : pumpStage { s with needsDisplayUpdate := false } i = _ :=
      pumpStage_exit _ i hp (Or.inl ht)
    have e2 := pumpFinish_repeat (pumpShow { s with needsDisplayUpdate := false } i) i ho
      (by rw [pumpShow_eq]; exact hd)
    have e3 := startFillingMix_go
      { pumpShow { s with needsDisplayUpdate := false } i with
        relayLevel := HIGH
        pumpRunning := false
        deliveredLiters := (pumpShow { s with needsDisplayUpdate := false } i).deliveredLiters +
          (pumpShow { s with needsDisplayUpdate := false } i).batchLiters } i.now (by
        apply min_capacity_pos
        rw [pumpShow_eq]
        simp only
        omega)
    have e4 : loop s i = pumpStage { s with needsDisplayUpdate := false } i := by
      rw [e0]
      apply cooldownStage_off
      rw [e1, e2, e3, showProgress_eq, pumpShow_eq]
      exact hw
    rw [e4, e1, e2, e3, showProgress_eq, pumpShow_eq]
    exact ⟨rfl, rfl, rfl, rfl, rfl, rfl, rfl, rfl, rfl, hw, rfl⟩
  · intro ht hd
    have e1 : pumpStage { s with needsDisplayUpdate := false } i = _ :=
      pumpStage_exit _ i hp (Or.inl ht)
    have e2 := pumpFinish_done (pumpShow { s with needsDisplayUpdate := false } i) i ho
      (by rw [pumpShow_eq]; exact hd)
    have e4 : loop s i = pumpStage { s with needsDisplayUpdate := false } i := by
      rw [e0]
      apply cooldownStage_dwell
      rw [e1, e2]
      simp only [subU32_self]
      norm_num
    rw [e4, e1, e2, pumpShow_eq]
    exact ⟨rfl, rfl, rfl, rfl, rfl, rfl, rfl, rfl, rfl, rfl, hf⟩
  · intro ht
    have e1 : pumpStage { s with needsDisplayUpdate := false } i = _ :=
      pumpStage_stay _ i hp ht ho
    have e4 : loop s i = pumpStage { s with needsDisplayUpdate := false } i := by
      rw [e0]
      apply cooldownStage_off
      rw [e1, pumpShow_eq]
      exact hw
    rw [e4, e1, pumpShow_eq]
    exact ⟨rfl, rfl, rfl, hp, rfl⟩

/-- C17, witness: the pump phase of the first batch of the 45-liter run (deadline
12000) idles at 11950 and hands over to a new fill phase at 12000; the pump phase of
the last batch (deadline 27000) ends the cycle. -/
theorem pump_deadline_transitions_witness :
    (loop (run setupUnitIO (cycle45.take 2)) (quietPass 11950 1820 HIGH)).deliveredLiters = 0 ∧
    (loop (run setupUnitIO (cycle45.take 2)) (quietPass 12000 1820 HIGH)).deliveredLiters = 20 ∧
    (loop (run setupUnitIO (cycle45.take 6)) (quietPass 27000 1820 HIGH)).statusLine2 =
      "pump off " := by
  have hs2 : PhaseOK (run setupUnitIO (cycle45.take 2)) :=
    run_PhaseOK _ _ (by decide) setup_PhaseOK
  have hs6 : PhaseOK (run setupUnitIO (cycle45.take 6)) :=
    run_PhaseOK _ _ (by decide) setup_PhaseOK
  have hp2 : (run setupUnitIO (cycle45.take 2)).pumpRunning = true := by decide
  have hp6 : (run setupUnitIO (cycle45.take 6)).pumpRunning = true := by decide
  have h1 := (pump_deadline_transitions _ (quietPass 11950 1820 HIGH) hs2 hp2 rfl).2.2
    (by decide)
  have h2 := (pump_deadline_transitions _ (quietPass 12000 1820 HIGH) hs2 hp2 rfl).1
    (by decide) (by decide)
  have h3 := (pump_deadline_transitions _ (quietPass 27000 1820 HIGH) hs6 hp6 rfl).2.1
    (by decide) (by decide)
  refine ⟨?_, ?_, h3.2.2.1⟩
  · rw [h1.1]
    decide
  · rw [h2.2.2.1]
    decide

/-- C18: for every station in the fill phase (`fillingMix` set) the fill block of a
pass (lines 329-343, run on the station left by lines 298-327) leaves the fill phase
exactly when `now >= pumpStopTime` or the mix-tank sensor reads HIGH. On leaving it
closes both valves, switches the mix pump off and the transfer pump on, sets
`pumpRunning`, sets `batchLiters` to 20 if the sensor was asserted and leaves it
unchanged otherwise, and sets `pumpStopTime = now + batchLiters * MS_PER_LITER` (32-bit)
from that batch. When neither condition holds, `fillingMix`, `batchLiters`,
`pumpStopTime` and the four actuator outputs are unchanged. When moreover the flags
are constrained as in the data model, the drone-tank sensor is not asserted and a
pump phase just started has its deadline ahead, the station at the end of the pass
has the same flags, batch, deadline and actuator outputs as after the fill block. -/
theorem fill_phase_transitions (s : Unit) (i : Inputs) (hf : s.fillingMix = true) :
    ((fillStage (preStage s i) i).fillingMix = false ↔
      (i.now ≥ s.pumpStopTime ∨ i.mixMoisture = HIGH)) ∧
    (i.now ≥ s.pumpStopTime ∨ i.mixMoisture = HIGH →
      (fillStage (preStage s i) i).valveALevel = HIGH ∧
      (fillStage (preStage s i) i).valveBLevel = HIGH ∧
      (fillStage (preStage s i) i).pumpMixLevel = HIGH ∧
      (fillStage (preStage s i) i).relayLevel = LOW ∧
      (fillStage (preStage s i) i).pumpRunning = true ∧
      (fillStage (preStage s i) i).batchLiters =
        (if i.mixMoisture = HIGH then 20 else s.batchLiters) ∧
      (fillStage (preStage s i) i).pumpStopTime =
        addU32 i.now (toU32 ((fillStage (preStage s i) i).batchLiters * MS_PER_LITER))) ∧
    (i.now < s.pumpStopTime → i.mixMoisture = LOW →
      (fillStage (preStage s i) i).fillingMix = true ∧
      (fillStage (preStage s i) i).batchLiters = s.batchLiters ∧
      (fillStage (preStage s i) i).pumpStopTime = s.pumpStopTime ∧
      (fillStage (preStage s i) i).pumpRunning = s.pumpRunning ∧
      (fillStage (preStage s i) i).valveALevel = s.valveALevel ∧
      (fillStage (preStage s i) i).valveBLevel = s.valveBLevel ∧
      (fillStage (preStage s i) i).pumpMixLevel = s.pumpMixLevel ∧
      (fillStage (preStage s i) i).relayLevel = s.relayLevel) ∧
    (PhaseOK s → i.moisture = LOW →
      ((fillStage (preStage s i) i).pumpRunning = true →
        i.now < (fillStage (preStage s i) i).pumpStopTime) →
      (loop s i).fillingMix = (fillStage (preStage s i) i).fillingMix ∧
      (loop s i).pumpRunning = (fillStage (preStage s i) i).pumpRunning ∧
      (loop s i).batchLiters = (fillStage (preStage s i) i).batchLiters ∧
      (loop s i).pumpStopTime = (fillStage (preStage s i) i).pumpStopTime ∧
      (loop s i).valveALevel = (fillStage (preStage s i) i).valveALevel ∧
      (loop s i).valveBLevel = (fillStage (preStage s i) i).valveBLevel ∧
      (loop s i).pumpMixLevel = (fillStage (preStage s i) i).pumpMixLevel ∧
      (loop s i).relayLevel = (fillStage (preStage s i) i).relayLevel) := by
  have hn : ¬ Idle s := not_idle_of_busy (Or.inr (Or.inl hf))
  have e1 : preStage s i = { s with needsDisplayUpdate := false } := preStage_busy s i hn
  have hf1 : ({ s with needsDisplayUpdate := false } : Unit).fillingMix = true := hf
  have hexit : (i.now ≥ s.pumpStopTime ∨ i.mixMoisture = HIGH) →
      fillStage (preStage s i) i =
        startPumpingDrone
          (stopFillingMix
            { fillShow { s with needsDisplayUpdate := false } i with
              batchLiters := if i.mixMoisture = HIGH then MIX_TANK_CAPACITY else s.batchLiters })
          i.now := fun hx => by
    rw [e1]
    exact fillStage_exit _ i hf1 hx
  have hstay : i.now < s.pumpStopTime → i.mixMoisture = LOW →
      fillStage (preStage s i) i = fillShow { s with needsDisplayUpdate := false } i :=
    fun ht hm => by
      rw [e1]
      exact fillStage_stay _ i hf1 ht hm
  refine ⟨⟨?_, ?_⟩, ?_, ?_, ?_⟩
  · intro h
    by_contra hx
    have ht : i.now < s.pumpStopTime := not_le.mp (fun hc => hx (Or.inl hc))
    have hm : i.mixMoisture = LOW := bool_eq_LOW_of_ne_HIGH (fun hc => hx (Or.inr hc))
    rw [hstay ht hm, fillShow_eq] at h
    rw [hf1] at h
    exact Bool.noConfusion h
  · intro hx
    rw [hexit hx, startPumpingDrone_eq, showProgress_eq, stopFillingMix_eq]
  · intro hx
    rw [hexit hx, startPumpingDrone_eq, showProgress_eq, stopFillingMix_eq, fillShow_eq]
    exact ⟨rfl, rfl, rfl, rfl, rfl, rfl, rfl⟩
  · intro ht hm
    rw [hstay ht hm, fillShow_eq]
    exact ⟨hf, rfl, rfl, rfl, rfl, rfl, rfl, rfl⟩
  · intro hs ho hd
    obtain ⟨hp, hw, _⟩ := PhaseOK_fill hs hf
    by_cases hx : i.now ≥ s.pumpStopTime ∨ i.mixMoisture = HIGH
    · have hp1 : (fillStage (preStage s i) i).pumpRunning = true := by
        rw [hexit hx, startPumpingDrone_eq, showProgress_eq]
      have hw1 : (fillStage (preStage s i) i).waitBeforeReset = false := by
        rw [hexit hx, startPumpingDrone_eq, showProgress_eq, stopFillingMix_eq, fillShow_eq]
        exact hw
      have e3 : pumpStage (fillStage (preStage s i) i) i =
          pumpShow (fillStage (preStage s i) i) i :=
        pumpStage_stay _ i hp1 (hd hp1) ho
      have e4 : loop s i = pumpShow (fillStage (preStage s i) i) i := by
        unfold loop phaseStage
        rw [e3]
        apply cooldownStage_off
        rw [pumpShow_eq]
        exact hw1
      rw [e4, pumpShow_eq]
      exact ⟨rfl, rfl, rfl, rfl, rfl, rfl, rfl, rfl⟩
    · have ht : i.now < s.pumpStopTime := not_le.mp (fun hc => hx (Or.inl hc))
      have hm : i.mixMoisture = LOW := bool_eq_LOW_of_ne_HIGH (fun hc => hx (Or.inr hc))
      have hp1 : (fillStage (preStage s i) i).pumpRunning = false := by
        rw [hstay ht hm, fillShow_eq]
        exact hp
      have hw1 : (fillStage (preStage s i) i).waitBeforeReset = false := by
        rw [hstay ht hm, fillShow_eq]
        exact hw
      have e4 : loop s i = fillStage (preStage s i) i := by
        unfold loop phaseStage
        rw [pumpStage_off _ i hp1]
        exact cooldownStage_off _ i hw1
      rw [e4]
      exact ⟨rfl, rfl, rfl, rfl, rfl, rfl, rfl, rfl⟩

/-- C18, witness: the fill of the 10-liter cycle (deadline 3000) continues at 2950,
ends by time at 3000 with batch 10, and ends at 50 with the batch forced to 20 when
the mix-tank sensor trips. -/
theorem fill_phase_transitions_witness :
    (loop fillingTen (quietPass 2950 373 HIGH)).fillingMix = true ∧
    (loop fillingTen (quietPass 3000 373 HIGH)).pumpRunning = true ∧
    (loop fillingTen (quietPass 3000 373 HIGH)).batchLiters = 10 ∧
    (loop fillingTen (mixFullPass 50)).pumpRunning = true ∧
    (loop fillingTen (mixFullPass 50)).batchLiters = 20 := by
  have hf : fillingTen.fillingMix = true := by decide
  have hb : fillingTen.batchLiters = 10 := by decide
  have hs : PhaseOK fillingTen := run_PhaseOK _ _ (by decide) setup_PhaseOK
  have a := fill_phase_transitions fillingTen (quietPass 2950 373 HIGH) hf
  have b := fill_phase_transitions fillingTen (quietPass 3000 373 HIGH) hf
  have c := fill_phase_transitions fillingTen (mixFullPass 50) hf
  have a3 := a.2.2.1 (by decide) rfl
  have a4 := a.2.2.2 hs rfl (fun h => by
    rw [a3.2.2.2.1] at h
    exact absurd h (by decide))
  have b2 := b.2.1 (Or.inl (by decide))
  have b4 := b.2.2.2 hs rfl (fun _ => by
    rw [b2.2.2.2.2.2.2, b2.2.2.2.2.2.1, hb]
    decide)
  have c2 := c.2.1 (Or.inr rfl)
  have c4 := c.2.2.2 hs rfl (fun _ => by
    rw [c2.2.2.2.2.2.2, c2.2.2.2.2.2.1]
    decide)
  refine ⟨by rw [a4.1, a3.1], by rw [b4.2.1, b2.2.2.2.2.1], ?_, by rw [c4.2.1, c2.2.2.2.2.1], ?_⟩
  · rw [b4.2.2.1, b2.2.2.2.2.2.1, hb]
    decide
  · rw [c4.2.2.1, c2.2.2.2.2.2.1]
    decide

theorem preStage_ActOK (u : Unit) (i : Inputs) (hr : 0 ≤ i.potValue) (h : ActOK u) :
    ActOK (preStage u i) := by
  by_cases hi : Idle u
  · by_cases hb : Pressed i
    · rw [preStage_idle_pressed u i hi hb, startFillingMix_go _ _ (by
        apply min_capacity_pos
        have := map_pot_pos i.potValue hr
        simp only
        omega), showProgress_eq]
      obtain ⟨_, _, _, h4⟩ := h
      exact ⟨fun _ => ⟨rfl, rfl, rfl⟩, fun hc => Bool.noConfusion hc,
        fun hc => Bool.noConfusion hc, fun _ => h4 hi.2.1⟩
    · rw [preStage_idle_released u i hi hb]
      exact h
  · rw [preStage_busy u i hi]
    exact h

theorem fillStage_ActOK (u : Unit) (i : Inputs) (h : ActOK u) : ActOK (fillStage u i) := by
  rcases fillStage_cases u i with ⟨_, e⟩ | ⟨_, _, _, e⟩ | ⟨_, _, e⟩ <;> rw [e]
  · exact h
  · rw [fillShow_eq]
    exact h
  · rw [startPumpingDrone_eq, showProgress_eq, stopFillingMix_eq, fillShow_eq]
    exact ⟨fun hc => Bool.noConfusion hc, fun _ => ⟨rfl, rfl, rfl⟩, fun _ => rfl,
      fun hc => Bool.noConfusion hc⟩

theorem pumpStage_ActOK (u : Unit) (i : Inputs) (h : ActOK u) : ActOK (pumpStage u i) := by
  obtain ⟨h1, h2, h3, h4⟩ := h
  rcases pumpStage_cases u i with ⟨_, e⟩ | ⟨_, _, _, e⟩ | ⟨_, ho, e⟩ | ⟨_, _, ho, e⟩
  · rw [e]
    exact ⟨h1, h2, h3, h4⟩
  · rw [e, pumpShow_eq]
    exact ⟨h1, h2, h3, h4⟩
  · rw [e, pumpFinish_overflow _ _ ho, pumpShow_eq]
    exact ⟨h1, h2, fun hc => Bool.noConfusion hc, fun _ => rfl⟩
  · by_cases hd : (pumpShow u i).deliveredLiters + (pumpShow u i).batchLiters
        ≥ (pumpShow u i).targetLiters
    · rw [e, pumpFinish_done _ _ ho hd, pumpShow_eq]
      exact ⟨h1, h2, fun hc => Bool.noConfusion hc, fun _ => rfl⟩
    · have hd2 := not_le.mp hd
      rw [e, pumpFinish_repeat _ _ ho hd2, startFillingMix_go _ _ (by
        apply min_capacity_pos
        simp only
        omega), showProgress_eq, pumpShow_eq]
      exact ⟨fun _ => ⟨rfl, rfl, rfl⟩, fun hc => Bool.noConfusion hc,
        fun hc => Bool.noConfusion hc, fun _ => rfl⟩

theorem cooldownStage_ActOK (u : Unit) (i : Inputs) (hp : PhaseOK u) (h : ActOK u) :
    ActOK (cooldownStage u i) := by
  rcases cooldownStage_cases u i with e | ⟨hw, _, e⟩ <;> rw [e]
  · exact h
  · obtain ⟨hf, hpr, _⟩ := PhaseOK_wait hp hw
    obtain ⟨_, h2, _, h4⟩ := h
    exact ⟨fun hc => Bool.noConfusion hc, fun _ => h2 hf, fun hc => Bool.noConfusion hc,
      fun _ => h4 hpr⟩

theorem loop_ActOK (u : Unit) (i : Inputs) (hr : 0 ≤ i.potValue) (hp : PhaseOK u)
    (h : ActOK u) : ActOK (loop u i) :=
  cooldownStage_ActOK _ i
    (pumpStage_PhaseOK _ i (fillStage_PhaseOK _ i (preStage_PhaseOK u i hr hp)))
    (pumpStage_ActOK _ i (fillStage_ActOK _ i (preStage_ActOK u i hr h)))

theorem run_ActOK (is : List Inputs) (u : Unit) (hr : ∀ i ∈ is, PotInRange i)
    (hp : PhaseOK u) (h : ActOK u) : ActOK (run u is) := by
  induction is generalizing u with
  | nil => exact h
  | cons i is ih =>
    have hi : PotInRange i := hr i (List.mem_cons_self i is)
    exact ih (loop u i) (fun j hj => hr j (List.mem_cons_of_mem i hj))
      (loop_PhaseOK u i hi.1 hp) (loop_ActOK u i hi.1 hp h)

theorem setup_ActOK : ActOK setupUnitIO := by
  unfold ActOK
  decide

/-- C20: in every station reached from `setupUnitIO` by passes of `loop()` whose
potentiometer readings lie in 0..4095, the mix pump relay is energised (LOW) and both
valves are open (LOW) exactly when `fillingMix` is set, and all three are off (HIGH)
otherwise; the transfer pump relay is energised (LOW) exactly when `pumpRunning` is
set; hence the two pumps are never energised together, and in idle (`readyToStart`
set) and in cooldown (`waitBeforeReset` set) every actuator output is off. -/
theorem actuators_follow_flags (is : List Inputs) (h : ∀ i ∈ is, PotInRange i) :
    (((run setupUnitIO is).pumpMixLevel = LOW ∧ (run setupUnitIO is).valveALevel = LOW ∧
        (run setupUnitIO is).valveBLevel = LOW) ↔ (run setupUnitIO is).fillingMix = true) ∧
    ((run setupUnitIO is).fillingMix = false →
      (run setupUnitIO is).pumpMixLevel = HIGH ∧ (run setupUnitIO is).valveALevel = HIGH ∧
        (run setupUnitIO is).valveBLevel = HIGH) ∧
    ((run setupUnitIO is).relayLevel = LOW ↔ (run setupUnitIO is).pumpRunning = true) ∧
    ¬ ((run setupUnitIO is).pumpMixLevel = LOW ∧ (run setupUnitIO is).relayLevel = LOW) ∧
    ((run setupUnitIO is).readyToStart = true ∨ (run setupUnitIO is).waitBeforeReset = true →
      (run setupUnitIO is).pumpMixLevel = HIGH ∧ (run setupUnitIO is).relayLevel = HIGH ∧
      (run setupUnitIO is).valveALevel = HIGH ∧ (run setupUnitIO is).valveBLevel = HIGH) := by
  have hp := run_PhaseOK is _ h setup_PhaseOK
  obtain ⟨a1, a2, a3, a4⟩ := run_ActOK is _ h setup_PhaseOK setup_ActOK
  generalize run setupUnitIO is = u at hp a1 a2 a3 a4
  have k1 : u.pumpMixLevel = LOW → u.fillingMix = true := by
    intro hl
    cases hf : u.fillingMix
    · rw [(a2 hf).1] at hl
      exact absurd hl (by decide)
    · rfl
  have k2 : u.relayLevel = LOW → u.pumpRunning = true := by
    intro hl
    cases hf : u.pumpRunning
    · rw [a4 hf] at hl
      exact absurd hl (by decide)
    · rfl
  refine ⟨⟨fun hl => k1 hl.1, a1⟩, a2, ⟨k2, a3⟩, ?_, ?_⟩
  · rintro ⟨hl1, hl2⟩
    exact hp.1 ⟨k1 hl1, k2 hl2⟩
  · intro hc
    have hfp : u.fillingMix = false ∧ u.pumpRunning = false := by
      rcases hc with hc | hc
      · exact ⟨(hp.2.2.2 hc).1, (hp.2.2.2 hc).2.1⟩
      · exact ⟨(PhaseOK_wait hp hc).1, (PhaseOK_wait hp hc).2.1⟩
    exact ⟨(a2 hfp.1).1, a4 hfp.2, (a2 hfp.1).2.1, (a2 hfp.1).2.2⟩

/-- C20, witness: in the second fill of the 45-liter run the mix pump is energised
and the transfer pump is off. -/
theorem actuators_follow_flags_witness :
    (run setupUnitIO (cycle45.take 3)).fillingMix = true ∧
    (run setupUnitIO (cycle45.take 3)).pumpMixLevel = LOW ∧
    ¬ (run setupUnitIO (cycle45.take 3)).relayLevel = LOW := by
  have h := actuators_follow_flags (cycle45.take 3) (by decide)
  have hf : (run setupUnitIO (cycle45.take 3)).fillingMix = true := by decide
  exact ⟨hf, (h.1.2 hf).1, fun hl => h.2.2.2.1 ⟨(h.1.2 hf).1, hl⟩⟩

theorem InCycle_InCycleM {T : Int} {u : Unit} (h : InCycle T u) : InCycleM T u := by
  obtain ⟨h1, h2, h3, h4, h5, h6, h7⟩ := h
  refine ⟨h1, h2, h3, h4, h5, ?_, h7⟩
  rw [h6]
  exact min_capacity_pos (by omega)

theorem fillStage_cycleM (T : Int) (u : Unit) (i : Inputs) (h : InCycleM T u) :
    InCycleM T (fillStage u i) := by
  obtain ⟨h1, h2, h3, h4, h5, h6, h7⟩ := h
  rcases fillStage_cases u i with ⟨_, e⟩ | ⟨_, _, _, e⟩ | ⟨_, _, e⟩ <;> rw [e]
  · exact ⟨h1, h2, h3, h4, h5, h6, h7⟩
  · rw [fillShow_eq]
    exact ⟨h1, h2, h3, h4, h5, h6, h7⟩
  · rw [startPumpingDrone_eq, showProgress_eq, stopFillingMix_eq, fillShow_eq]
    refine ⟨h1, h2, h3, h4, h5, ?_, rfl⟩
    simp only [MIX_TANK_CAPACITY]
    split
    · norm_num
    · exact h6

theorem pumpStage_cycleM (T : Int) (u : Unit) (i : Inputs) (h : InCycleM T u)
    (ho : i.moisture = LOW) :
    InCycleM T (pumpStage u i) ∨ CycleDone T i.now (pumpStage u i) := by
  obtain ⟨h1, h2, h3, h4, h5, h6, h7⟩ := h
  have hoh : ¬ i.moisture = HIGH := by rw [ho]; decide
  rcases pumpStage_cases u i with ⟨_, e⟩ | ⟨_, _, _, e⟩ | ⟨_, hc, _⟩ | ⟨hp, _, _, e⟩
  · rw [e]
    exact Or.inl ⟨h1, h2, h3, h4, h5, h6, h7⟩
  · rw [e, pumpShow_eq]
    exact Or.inl ⟨h1, h2, h3, h4, h5, h6, h7⟩
  · exact absurd hc hoh
  · have hf : u.fillingMix = false := by rw [h7, hp]; rfl
    by_cases hd : (pumpShow u i).deliveredLiters + (pumpShow u i).batchLiters
        ≥ (pumpShow u i).targetLiters
    · rw [e, pumpFinish_done _ _ ho hd, pumpShow_eq]
      exact Or.inr ⟨h1, h2, rfl, h1, hf, rfl, rfl⟩
    · have hd2 := not_le.mp hd
      rw [e, pumpFinish_repeat _ _ ho hd2, startFillingMix_go _ _ (by
        apply min_capacity_pos
        simp only
        omega), showProgress_eq]
      rw [pumpShow_eq] at hd2 ⊢
      simp only at hd2
      refine Or.inl ⟨h1, h2, h3, by simp only; omega, by simp only; omega, ?_, rfl⟩
      simp only [h1]
      apply min_capacity_pos
      omega

theorem cycleM_pass (T : Int) (u : Unit) (i : Inputs) (h : InCycleM T (preStage u i))
    (ho : i.moisture = LOW) :
    InCycleM T (loop u i) ∨ CycleDone T i.now (loop u i) := by
  have p1 := pumpStage_cycleM T _ i (fillStage_cycleM T _ i h) ho
  have e : loop u i = pumpStage (fillStage (preStage u i) i) i := by
    unfold loop phaseStage
    rcases p1 with p | p
    · exact cooldownStage_off _ i p.2.2.1
    · apply cooldownStage_dwell
      rw [p.2.2.2.2.2.2, subU32_self]
      norm_num
  rw [e]
  exact p1

theorem preStage_InCycleM (T : Int) (u : Unit) (i : Inputs) (h : InCycleM T u) :
    InCycleM T (preStage u i) := by
  rw [preStage_busy u i (not_idle_of_not_ready h.2.1)]
  exact h

theorem cycleM_run (T : Int) (is : List Inputs) :
    ∀ (u : Unit) (i : Inputs), InCycleM T (preStage u i) →
      (∀ j ∈ i :: is, j.moisture = LOW) →
      cycleAll (fun s => s.targetLiters = T ∧ 0 ≤ s.deliveredLiters ∧ s.deliveredLiters ≤ T)
        u (i :: is) ∧
      ∀ v : Unit, atCooldown u (i :: is) = some v → CycleDone T v.waitStartTime v := by
  induction is with
  | nil =>
    intro u i h hq
    have c := cycleM_pass T u i h (hq i (List.mem_cons_self i []))
    have hb : (loop u i).targetLiters = T ∧ 0 ≤ (loop u i).deliveredLiters ∧
        (loop u i).deliveredLiters ≤ T := by
      rcases c with c | c
      · exact ⟨c.1, c.2.2.2.1, le_of_lt c.2.2.2.2.1⟩
      · exact ⟨c.1, by rw [c.2.2.2.1]; have := h.2.2.2.1; have := h.2.2.2.2.1; omega,
          le_of_eq c.2.2.2.1⟩
    refine ⟨⟨hb, fun _ => trivial⟩, ?_⟩
    intro v hv
    rw [atCooldown] at hv
    by_cases hw : (loop u i).waitBeforeReset = true
    · rw [if_pos hw] at hv
      have e : loop u i = v := Option.some.inj hv
      rcases c with c | c
      · rw [c.2.2.1] at hw
        exact Bool.noConfusion hw
      · rw [← e, c.2.2.2.2.2.2]
        exact c
    · rw [if_neg hw] at hv
      exact Option.noConfusion hv
  | cons j js ih =>
    intro u i h hq
    have c := cycleM_pass T u i h (hq i (List.mem_cons_self i _))
    have hb : (loop u i).targetLiters = T ∧ 0 ≤ (loop u i).deliveredLiters ∧
        (loop u i).deliveredLiters ≤ T := by
      rcases c with c | c
      · exact ⟨c.1, c.2.2.2.1, le_of_lt c.2.2.2.2.1⟩
      · exact ⟨c.1, by rw [c.2.2.2.1]; have := h.2.2.2.1; have := h.2.2.2.2.1; omega,
          le_of_eq c.2.2.2.1⟩
    rcases c with c | c
    · have r := ih (loop u i) j (preStage_InCycleM T _ j c)
        (fun k hk => hq k (List.mem_cons_of_mem i hk))
      refine ⟨⟨hb, fun _ => r.1⟩, ?_⟩
      intro v hv
      rw [atCooldown] at hv
      simp only [c.2.2.1, Bool.false_eq_true, if_false] at hv
      exact r.2 v hv
    · refine ⟨⟨hb, fun hw => ?_⟩, ?_⟩
      · rw [c.2.2.1] at hw
        exact Bool.noConfusion hw
      · intro v hv
        rw [atCooldown] at hv
        simp only [c.2.2.1, if_true] at hv
        have e : loop u i = v := Option.some.inj hv
        rw [← e, c.2.2.2.2.2.2]
        exact c

theorem cycleAll_mono {P Q : Unit → Prop} (hPQ : ∀ s, P s → Q s) (is : List Inputs) :
    ∀ u : Unit, cycleAll P u is → cycleAll Q u is := by
  induction is with
  | nil =>
    intro u _
    trivial
  | cons i is ih =>
    intro u h
    exact ⟨hPQ _ h.1, fun hw => ih _ (h.2 hw)⟩

theorem fillStage_forced_batch (s : Unit) (i : Inputs) (hf : s.fillingMix = true)
    (hm : i.mixMoisture = HIGH) :
    (fillStage (preStage s i) i).batchLiters = 20 ∧
    (fillStage (preStage s i) i).fillingMix = false ∧
    (fillStage (preStage s i) i).pumpRunning = true ∧
    (fillStage (preStage s i) i).deliveredLiters = s.deliveredLiters := by
  have e1 : preStage s i = { s with needsDisplayUpdate := false } :=
    preStage_busy s i (not_idle_of_busy (Or.inr (Or.inl hf)))
  have hf1 : ({ s with needsDisplayUpdate := false } : Unit).fillingMix = true := hf
  rw [e1, fillStage_exit _ i hf1 (Or.inr hm), startPumpingDrone_eq, showProgress_eq,
    stopFillingMix_eq, fillShow_eq]
  refine ⟨?_, rfl, rfl, rfl⟩
  show (if i.mixMoisture = HIGH then MIX_TANK_CAPACITY else s.batchLiters) = 20
  rw [if_pos hm]
  rfl


theorem batchPlan_nonpos (n : Nat) (r : Int) (h : r ≤ 0) : batchPlan n r = [] := by
  cases n with
  | zero => rfl
  | succ n => rw [batchPlan, if_pos h]

theorem cycle_pass_batch (T : Int) (u : Unit) (i : Inputs) (h : InCycle T (preStage u i))
    (hq : NoOverflow i) :
    batchCompleted u i = none ∨
    batchCompleted u i =
      some (min MIX_TANK_CAPACITY (T - (preStage u i).deliveredLiters)) := by
  obtain ⟨f1, f2, _⟩ := fillStage_cycle T (preStage u i) i h hq.1
  unfold batchCompleted
  split
  · right
    rw [f1.2.2.2.2.2.1, f2]
  · left
    rfl

theorem cycle_pass_display (T : Int) (u : Unit) (i : Inputs) (h : InCycle T (preStage u i))
    (hq : NoOverflow i) (hw : (loop u i).waitBeforeReset = true) :
    (loop u i).statusLine2 = "pump off " ∧ (loop u i).ledR = 0 ∧ (loop u i).ledG = 0 ∧
    (loop u i).ledB = 0 ∧ (loop u i).relayLevel = HIGH := by
  obtain ⟨f1, _, _⟩ := fillStage_cycle T (preStage u i) i h hq.1
  obtain ⟨p1, _⟩ := pumpStage_cycle T (fillStage (preStage u i) i) i f1 hq.2
  have e : loop u i = pumpStage (fillStage (preStage u i) i) i := by
    unfold loop phaseStage
    exact cooldownStage_cycle T _ i p1
  rw [e] at hw ⊢
  generalize fillStage (preStage u i) i = w at f1 hw ⊢
  obtain ⟨h1, h2, h3, h4, h5, h6, h7⟩ := f1
  have hoh : ¬ i.moisture = HIGH := by rw [hq.2]; decide
  rcases pumpStage_cases w i with ⟨_, e⟩ | ⟨_, _, _, e⟩ | ⟨_, hc, _⟩ | ⟨hp, _, ho, e⟩
  · rw [e, h3] at hw
    exact Bool.noConfusion hw
  · rw [e, pumpShow_eq] at hw
    rw [h3] at hw
    exact Bool.noConfusion hw
  · exact absurd hc hoh
  · by_cases hd : (pumpShow w i).deliveredLiters + (pumpShow w i).batchLiters
        ≥ (pumpShow w i).targetLiters
    · rw [e, pumpFinish_done _ _ ho hd]
      exact ⟨rfl, rfl, rfl, rfl, rfl⟩
    · have hd2 := not_le.mp hd
      have hb : w.batchLiters = min 20 (T - w.deliveredLiters) := h6
      rw [e, pumpFinish_repeat _ _ ho hd2, startFillingMix_go _ _ (by
        apply min_capacity_pos
        simp only
        omega), showProgress_eq, pumpShow_eq] at hw
      rw [h3] at hw
      exact Bool.noConfusion hw

theorem cycle_run_batches (T : Int) (is : List Inputs) :
    ∀ (u : Unit) (i : Inputs) (v : Unit) (n : Nat), InCycle T (preStage u i) →
      (∀ j ∈ i :: is, NoOverflow j) → atCooldown u (i :: is) = some v →
      T - (preStage u i).deliveredLiters ≤ 20 * (n : Int) →
      cycleBatches u (i :: is) = batchPlan n (T - (preStage u i).deliveredLiters) ∧
      v.statusLine2 = "pump off " ∧ v.ledR = 0 ∧ v.ledG = 0 ∧ v.ledB = 0 := by
  induction is with
  | nil =>
    intro u i v n h hq hc hn
    have hqi := hq i (List.mem_cons_self i [])
    obtain ⟨c1, _, c3, _, _⟩ := cycle_pass T u i h hqi
    have cb := cycle_pass_batch T u i h hqi
    rw [atCooldown] at hc
    by_cases hw : (loop u i).waitBeforeReset = true
    · rw [if_pos hw] at hc
      have hv : loop u i = v := Option.some.inj hc
      have dsp := cycle_pass_display T u i h hqi hw
      rw [hv] at dsp
      refine ⟨?_, dsp.1, dsp.2.1, dsp.2.2.1, dsp.2.2.2.1⟩
      rcases c1 with c1 | c1
      · rw [c1.2.2.1] at hw
        exact Bool.noConfusion hw
      · have hd := h.2.2.2.2.1
        rw [c1.2.2.2.1] at c3
        rw [cycleBatches]
        simp only [hw, if_true, List.append_nil]
        rcases cb with cb | cb
        · rw [cb] at c3
          simp at c3
          omega
        · rw [cb] at c3 ⊢
          simp only [Option.toList_some, List.sum_cons, List.sum_nil, add_zero] at c3
          cases n with
          | zero => omega
          | succ m =>
            rw [batchPlan, if_neg (by omega), batchPlan_nonpos m _ (by omega)]
            rfl
    · rw [if_neg hw] at hc
      exact Option.noConfusion hc
  | cons j js ih =>
    intro u i v n h hq hc hn
    have hqi := hq i (List.mem_cons_self i _)
    obtain ⟨c1, _, c3, _, _⟩ := cycle_pass T u i h hqi
    have cb := cycle_pass_batch T u i h hqi
    have hd := h.2.2.2.2.1
    rw [atCooldown] at hc
    by_cases hw : (loop u i).waitBeforeReset = true
    · rw [if_pos hw] at hc
      have hv : loop u i = v := Option.some.inj hc
      have dsp := cycle_pass_display T u i h hqi hw
      rw [hv] at dsp
      refine ⟨?_, dsp.1, dsp.2.1, dsp.2.2.1, dsp.2.2.2.1⟩
      rcases c1 with c1 | c1
      · rw [c1.2.2.1] at hw
        exact Bool.noConfusion hw
      · rw [c1.2.2.2.1] at c3
        rw [cycleBatches]
        simp only [hw, if_true, List.append_nil]
        rcases cb with cb | cb
        · rw [cb] at c3
          simp at c3
          omega
        · rw [cb] at c3 ⊢
          simp only [Option.toList_some, List.sum_cons, List.sum_nil, add_zero] at c3
          cases n with
          | zero => omega
          | succ m =>
            rw [batchPlan, if_neg (by omega), batchPlan_nonpos m _ (by omega)]
            rfl
    · rw [if_neg hw] at hc
      have hw2 : (loop u i).waitBeforeReset = false := by simpa using hw
      rcases c1 with c1 | c1
      · obtain ⟨e, h2⟩ := preStage_InCycle T (loop u i) j c1
        have hdl : (preStage (loop u i) j).deliveredLiters = (loop u i).deliveredLiters := by
          rw [e]
        have hd1 := c1.2.2.2.2.1
        rw [cycleBatches]
        simp only [hw2, Bool.false_eq_true, if_false]
        rcases cb with cb | cb
        · rw [cb] at c3 ⊢
          simp only [Option.toList_none, List.sum_nil, add_zero] at c3
          obtain ⟨r1, r2⟩ := ih (loop u i) j v n h2
            (fun k hk => hq k (List.mem_cons_of_mem i hk)) hc (by rw [hdl, c3]; exact hn)
          rw [hdl, c3] at r1
          exact ⟨by rw [r1]; rfl, r2⟩
        · rw [cb] at c3 ⊢
          simp only [Option.toList_some, List.sum_cons, List.sum_nil, add_zero] at c3
          cases n with
          | zero => omega
          | succ m =>
            have hm : T - (preStage (loop u i) j).deliveredLiters ≤ 20 * (m : Int) := by
              rw [hdl, c3]
              simp only [MIX_TANK_CAPACITY]
              push_cast at hn
              omega
            obtain ⟨r1, r2⟩ := ih (loop u i) j v m h2
              (fun k hk => hq k (List.mem_cons_of_mem i hk)) hc hm
            rw [hdl, c3] at r1
            refine ⟨?_, r2⟩
            rw [batchPlan, if_neg (by omega), r1]
            simp only [Option.toList_some, List.singleton_append, List.cons.injEq, true_and]
            congr 1
            omega
      · rw [c1.2.2.1] at hw2
        exact Bool.noConfusion hw2

theorem CycleDone_PhaseOK {T : Int} {now : Nat} {u : Unit} (h : CycleDone T now u) :
    PhaseOK u := by
  obtain ⟨_, h2, _, _, h5, h6, _⟩ := h
  refine ⟨?_, ?_, ?_, ?_⟩
  · rintro ⟨hc, _⟩
    rw [h5] at hc
    exact Bool.noConfusion hc
  · rintro ⟨hc, _⟩
    rw [h5] at hc
    exact Bool.noConfusion hc
  · rintro ⟨hc, _⟩
    rw [h6] at hc
    exact Bool.noConfusion hc
  · intro hc
    rw [h2] at hc
    exact Bool.noConfusion hc

theorem loop_cooldown_dwell (s : Unit) (i : Inputs) (hs : PhaseOK s)
    (hw : s.waitBeforeReset = true) (ht : subU32 i.now s.waitStartTime < 1000) :
    loop s i = { s with needsDisplayUpdate := false } := by
  obtain ⟨hf, hp, hr⟩ := PhaseOK_wait hs hw
  have e1 : preStage s i = { s with needsDisplayUpdate := false } :=
    preStage_busy s i (not_idle_of_not_ready hr)
  unfold loop phaseStage
  rw [e1, fillStage_off _ i
      (show ({ s with needsDisplayUpdate := false } : Unit).fillingMix = false from hf),
    pumpStage_off _ i
      (show ({ s with needsDisplayUpdate := false } : Unit).pumpRunning = false from hp)]
  exact cooldownStage_dwell _ i ht

theorem loop_cooldown_over (s : Unit) (i : Inputs) (hs : PhaseOK s)
    (hw : s.waitBeforeReset = true) (ht : subU32 i.now s.waitStartTime ≥ 1000) :
    (loop s i).readyToStart = true ∧ (loop s i).statusLine2 = "ready again" ∧
    (loop s i).waitBeforeReset = false ∧ (loop s i).ledR = 0 ∧ (loop s i).ledG = 0 ∧
    (loop s i).ledB = 0 := by
  obtain ⟨hf, hp, hr⟩ := PhaseOK_wait hs hw
  have e1 : preStage s i = { s with needsDisplayUpdate := false } :=
    preStage_busy s i (not_idle_of_not_ready hr)
  have e : loop s i = cooldownStage { s with needsDisplayUpdate := false } i := by
    unfold loop phaseStage
    rw [e1, fillStage_off _ i
        (show ({ s with needsDisplayUpdate := false } : Unit).fillingMix = false from hf),
      pumpStage_off _ i
        (show ({ s with needsDisplayUpdate := false } : Unit).pumpRunning = false from hp)]
  rw [e, cooldownStage_done { s with needsDisplayUpdate := false } i hw ht]
  exact ⟨rfl, rfl, rfl, rfl, rfl, rfl⟩

/-- While every pass stays within the dwell, the station in cooldown keeps its
flags, its dwell start and its status line. -/
theorem run_cooldown_dwell (ds : List Inputs) :
    ∀ s : Unit, PhaseOK s → s.waitBeforeReset = true →
      (∀ d ∈ ds, subU32 d.now s.waitStartTime < 1000) →
      PhaseOK (run s ds) ∧ (run s ds).waitBeforeReset = true ∧
      (run s ds).waitStartTime = s.waitStartTime ∧
      (run s ds).statusLine2 = s.statusLine2 ∧ (run s ds).readyToStart = s.readyToStart ∧
      (run s ds).deliveredLiters = s.deliveredLiters := by
  induction ds with
  | nil =>
    intro s hs hw _
    exact ⟨hs, hw, rfl, rfl, rfl, rfl⟩
  | cons d ds ih =>
    intro s hs hw hd
    have e := loop_cooldown_dwell s d hs hw (hd d (List.mem_cons_self d ds))
    have r := ih (loop s d) (by rw [e]; exact hs) (by rw [e]; exact hw)
      (fun k hk => by rw [e]; exact hd k (List.mem_cons_of_mem d hk))
    have hrun : run s (d :: ds) = run (loop s d) ds := rfl
    rw [hrun, e]
    rw [e] at r
    exact r

/-- C11: with the dial at 45 liters and no overflow sensor ever asserted, every run
from idle into cooldown adds the batches 20, 20, 5 in that order in three pump
phases and enters cooldown with `deliveredLiters = 45`, status line 2 "pump off "
and the indicator written (0,0,0); after any passes within the dwell, which leave
the station waiting, the first pass with `now - waitStartTime >= 1000` sets status
line 2 to "ready again" and sets `readyToStart`. Such a run into cooldown exists. -/
theorem cycle_of_45_liters :
    (∀ (u v : Unit) (i : Inputs) (is : List Inputs),
      Idle u → u.waitBeforeReset = false → Pressed i → map i.potValue 0 4095 1 100 = 45 →
      (∀ j ∈ i :: is, NoOverflow j) → atCooldown u (i :: is) = some v →
      cycleBatches u (i :: is) = [20, 20, 5] ∧ cycleStarts u (i :: is) = 3 ∧
      v.deliveredLiters = 45 ∧ v.targetLiters = 45 ∧ v.statusLine2 = "pump off " ∧
      v.ledR = 0 ∧ v.ledG = 0 ∧ v.ledB = 0 ∧
      ∀ (ds : List Inputs) (j : Inputs),
        (∀ d ∈ ds, subU32 d.now v.waitStartTime < 1000) →
        subU32 j.now v.waitStartTime ≥ 1000 →
        (run v ds).readyToStart = false ∧ (run v ds).statusLine2 = "pump off " ∧
        (loop (run v ds) j).statusLine2 = "ready again" ∧
        (loop (run v ds) j).readyToStart = true) ∧
    (∀ (u : Unit) (i : Inputs),
      Idle u → u.waitBeforeReset = false → Pressed i → map i.potValue 0 4095 1 100 = 45 →
      NoOverflow i →
      ∃ (is : List Inputs) (v : Unit),
        (∀ j ∈ is, NoOverflow j) ∧ atCooldown u (i :: is) = some v) := by
  constructor
  · intro u v i is hu hw hb hm hq hc
    obtain ⟨f1, f2, f3⟩ := first_pass 45 u i (by norm_num) hu hw hb hm
    obtain ⟨r1, _, r3, _⟩ := cycle_run 45 is u i v f1 hq hc
    obtain ⟨b1, b2, b3, b4, b5⟩ := cycle_run_batches 45 is u i v 3 f1 hq hc (by
      rw [f2]
      norm_num)
    rw [f2] at b1
    rw [f3] at r1
    have hP := CycleDone_PhaseOK r3
    refine ⟨by rw [b1]; decide, by exact_mod_cast r1, r3.2.2.2.1, r3.1, b2, b3, b4, b5, ?_⟩
    intro ds j hds hj
    obtain ⟨d1, d2, d3, d4, d5, _⟩ := run_cooldown_dwell ds v hP r3.2.2.1 hds
    have o := loop_cooldown_over (run v ds) j d1 d2 (by rw [d3]; exact hj)
    exact ⟨by rw [d5]; exact r3.2.1, by rw [d4]; exact b2, o.2.1, o.1⟩
  · intro u i hu hw hb hm hq
    obtain ⟨is, h1, h2⟩ := cycle_completes 45 u i (by norm_num) hu hw hb hm hq
    obtain ⟨v, hv⟩ := Option.isSome_iff_exists.mp h2
    exact ⟨is, v, h1, hv⟩

/-- C11, witness: the 45-liter run from the initial station, with passes at 27050
and 27950 inside the dwell and the pass at 28000 ending it. -/
theorem cycle_of_45_liters_witness :
    cycleBatches setupUnitIO cycle45 = [20, 20, 5] ∧
    (loop (run (run setupUnitIO cycle45)
      [quietPass 27050 1820 HIGH, quietPass 27950 1820 HIGH])
      (quietPass 28000 1820 HIGH)).statusLine2 = "ready again" := by
  have hc : atCooldown setupUnitIO cycle45 = some (run setupUnitIO cycle45) := by
    rfl
  have hw : (run setupUnitIO cycle45).waitStartTime = 27000 := by decide
  have h := cycle_of_45_liters.1 setupUnitIO (run setupUnitIO cycle45) (quietPass 0 1820 LOW)
    (cycle45.tail) (by decide) rfl (by decide) (by decide) (by decide) hc
  have h2 := h.2.2.2.2.2.2.2.2 [quietPass 27050 1820 HIGH, quietPass 27950 1820 HIGH]
    (quietPass 28000 1820 HIGH) (by rw [hw]; decide) (by rw [hw]; decide)
  exact ⟨h.1, h2.2.2.1⟩

theorem truncToInt_mono {x y : Rat} (hx : 0 ≤ x) (hxy : x ≤ y) :
    truncToInt x ≤ truncToInt y := by
  unfold truncToInt
  rw [if_pos hx, if_pos (le_trans hx hxy)]
  exact Int.floor_le_floor hxy

theorem truncToInt_nonneg {x : Rat} (hx : 0 ≤ x) : 0 ≤ truncToInt x := by
  unfold truncToInt
  rw [if_pos hx]
  exact Int.floor_nonneg.mpr hx

theorem truncToInt_le_of_le {x : Rat} {n : Int} (hx : 0 ≤ x) (h : x ≤ (n : Rat)) :
    truncToInt x ≤ n := by
  have h1 := truncToInt_mono hx h
  rw [truncToInt_intCast] at h1
  exact h1

theorem le_truncToInt_of_le {x : Rat} {n : Int} (hn : 0 ≤ n) (h : (n : Rat) ≤ x) :
    n ≤ truncToInt x := by
  have h0 : (0 : Rat) ≤ (n : Rat) := by exact_mod_cast hn
  have h1 := truncToInt_mono h0 h
  rw [truncToInt_intCast] at h1
  exact h1

theorem colorFromProgress_of_mem (p : Rat) (h0 : 0 ≤ p) (h1 : p ≤ 1) :
    colorFromProgress p =
      if p < 3333 / 10000 then
        (0, truncToInt (lerp 0 255 (p / (3333 / 10000))),
          truncToInt (lerp 255 0 (p / (3333 / 10000))))
      else if p < 6666 / 10000 then
        (truncToInt (lerp 0 255 ((p - 3333 / 10000) / (3333 / 10000))),
          truncToInt (lerp 255 128 ((p - 3333 / 10000) / (3333 / 10000))), 0)
      else
        (255, truncToInt (lerp 128 0 ((p - 6666 / 10000) / (3334 / 10000))), 0) := by
  have hc : constrain p 0 1 = p := by
    unfold constrain
    rw [if_neg (not_lt.mpr h0), if_neg (not_lt.mpr h1)]
  unfold colorFromProgress
  simp only [hc]

theorem colorFromProgress_range_of_mem (p : Rat) (h0 : 0 ≤ p) (h1 : p ≤ 1) :
    (0 ≤ (colorFromProgress p).1 ∧ (colorFromProgress p).1 ≤ 255) ∧
    (0 ≤ (colorFromProgress p).2.1 ∧ (colorFromProgress p).2.1 ≤ 255) ∧
    (0 ≤ (colorFromProgress p).2.2 ∧ (colorFromProgress p).2.2 ≤ 255) := by
  rw [colorFromProgress_of_mem p h0 h1]
  split_ifs with ha hb
  · refine ⟨⟨le_refl _, by norm_num⟩, ⟨truncToInt_nonneg ?_, truncToInt_le_of_le ?_ ?_⟩,
      ⟨truncToInt_nonneg ?_, truncToInt_le_of_le ?_ ?_⟩⟩ <;>
      (unfold lerp; push_cast; linarith)
  · have ha2 := not_lt.mp ha
    refine ⟨⟨truncToInt_nonneg ?_, truncToInt_le_of_le ?_ ?_⟩,
      ⟨truncToInt_nonneg ?_, truncToInt_le_of_le ?_ ?_⟩, ⟨le_refl _, by norm_num⟩⟩ <;>
      (unfold lerp; push_cast; linarith)
  · have hb2 := not_lt.mp hb
    refine ⟨⟨by norm_num, le_refl _⟩, ⟨truncToInt_nonneg ?_, truncToInt_le_of_le ?_ ?_⟩,
      ⟨le_refl _, by norm_num⟩⟩ <;>
      (unfold lerp; push_cast; linarith)

theorem colorFromProgress_clamped (p : Rat) :
    colorFromProgress p = colorFromProgress (constrain p 0 1) := by
  have h : constrain (constrain p 0 1) 0 1 = constrain p 0 1 := by
    unfold constrain
    split_ifs <;> first | rfl | (exfalso; linarith)
  unfold colorFromProgress
  simp only [h]

theorem constrain_mem (p : Rat) : 0 ≤ constrain p 0 1 ∧ constrain p 0 1 ≤ 1 := by
  unfold constrain
  split_ifs <;> constructor <;> linarith

/-- C19: read with exact rational arithmetic, for `0 ≤ p ≤ q ≤ 1` the red channel of
`colorFromProgress` is non-decreasing and the blue channel non-increasing; the green
channel is non-decreasing while `q` is below the first breakpoint 0.3333 of the code
and non-increasing once `p` is at or above it; and for every progress value, also
outside [0,1], each channel lies in 0..255. -/
theorem colorFromProgress_monotone_piecewise :
    (∀ p q : Rat, 0 ≤ p → p ≤ q → q ≤ 1 →
      (colorFromProgress p).1 ≤ (colorFromProgress q).1 ∧
      (colorFromProgress q).2.2 ≤ (colorFromProgress p).2.2 ∧
      (q < 3333 / 10000 → (colorFromProgress p).2.1 ≤ (colorFromProgress q).2.1) ∧
      (3333 / 10000 ≤ p → (colorFromProgress q).2.1 ≤ (colorFromProgress p).2.1)) ∧
    (∀ p : Rat,
      (0 ≤ (colorFromProgress p).1 ∧ (colorFromProgress p).1 ≤ 255) ∧
      (0 ≤ (colorFromProgress p).2.1 ∧ (colorFromProgress p).2.1 ≤ 255) ∧
      (0 ≤ (colorFromProgress p).2.2 ∧ (colorFromProgress p).2.2 ≤ 255)) := by
  constructor
  · intro p q h0 hpq h1
    have hq0 : 0 ≤ q := le_trans h0 hpq
    have hp1 : p ≤ 1 := le_trans hpq h1
    rw [colorFromProgress_of_mem p h0 hp1, colorFromProgress_of_mem q hq0 h1]
    split_ifs with hpa hqa hqb hpb hqa2 hqb2 hqa3 hqb3
    · refine ⟨le_refl _, truncToInt_mono ?_ ?_, fun _ => truncToInt_mono ?_ ?_,
        fun hc => absurd hpa (not_lt.mpr hc)⟩ <;>
        (unfold lerp; linarith)
    · have hqa' := not_lt.mp hqa
      refine ⟨truncToInt_nonneg ?_, truncToInt_nonneg ?_,
        fun hc => absurd hc hqa, fun hc => absurd hpa (not_lt.mpr hc)⟩ <;>
        (unfold lerp; linarith)
    · have hqa' := not_lt.mp hqa
      refine ⟨by norm_num, truncToInt_nonneg ?_,
        fun hc => absurd hc hqa, fun hc => absurd hpa (not_lt.mpr hc)⟩
      unfold lerp
      linarith
    · exfalso
      have := not_lt.mp hpa
      linarith
    · have hpa' := not_lt.mp hpa
      refine ⟨truncToInt_mono ?_ ?_, le_refl _, fun hc => absurd hc hqa2,
        fun _ => truncToInt_mono ?_ ?_⟩ <;>
        (unfold lerp; linarith)
    · have hpa' := not_lt.mp hpa
      have hqb' := not_lt.mp hqb2
      refine ⟨truncToInt_le_of_le ?_ ?_, le_refl _, fun hc => absurd hc hqa2,
        fun _ => le_trans (truncToInt_le_of_le (n := 128) ?_ ?_)
          (le_truncToInt_of_le (by norm_num) ?_)⟩ <;>
        (unfold lerp; push_cast; linarith)
    · exfalso
      have := not_lt.mp hpb
      linarith
    · exfalso
      have := not_lt.mp hpb
      linarith
    · have hpb' := not_lt.mp hpb
      refine ⟨le_refl _, le_refl _, fun hc => absurd hc hqa3, fun _ => truncToInt_mono ?_ ?_⟩ <;>
        (unfold lerp; linarith)
  · intro p
    rw [colorFromProgress_clamped p]
    exact colorFromProgress_range_of_mem _ (constrain_mem p).1 (constrain_mem p).2

/-- The green channel already falls between the code's breakpoint 0.3333 and 1/3. -/
theorem green_falls_before_one_third :
    (colorFromProgress (3333 / 10000)).2.1 = 255 ∧ (colorFromProgress (1 / 3)).2.1 = 254 := by
  rw [colorFromProgress_first_breakpoint, colorFromProgress_third]
  exact ⟨rfl, rfl⟩

/-- C19, witness: from progress 1/4 to 1/2 red rises and blue falls, green rises from
1/10 to 1/4 and falls from 1/2 to 3/4. -/
theorem colorFromProgress_monotone_piecewise_witness :
    (colorFromProgress (1 / 4)).1 ≤ (colorFromProgress (1 / 2)).1 ∧
    (colorFromProgress (1 / 2)).2.2 ≤ (colorFromProgress (1 / 4)).2.2 ∧
    (colorFromProgress (1 / 10)).2.1 ≤ (colorFromProgress (1 / 4)).2.1 ∧
    (colorFromProgress (3 / 4)).2.1 ≤ (colorFromProgress (1 / 2)).2.1 :=
  ⟨(colorFromProgress_monotone_piecewise.1 (1 / 4) (1 / 2) (by norm_num) (by norm_num)
      (by norm_num)).1,
   (colorFromProgress_monotone_piecewise.1 (1 / 4) (1 / 2) (by norm_num) (by norm_num)
      (by norm_num)).2.1,
   (colorFromProgress_monotone_piecewise.1 (1 / 10) (1 / 4) (by norm_num) (by norm_num)
      (by norm_num)).2.2.1 (by norm_num),
   (colorFromProgress_monotone_piecewise.1 (1 / 2) (3 / 4) (by norm_num) (by norm_num)
      (by norm_num)).2.2.2 (by norm_num)⟩

theorem first_batch_pass (T : Int) (u : Unit) (i : Inputs) (hT : T ≤ 20)
    (h : FirstBatch T (preStage u i)) (ho : i.moisture = LOW)
    (hs : fillExits (preStage u i) i → i.mixMoisture = HIGH) :
    (FirstBatch T (loop u i) ∧ batchCompleted u i = none ∧
      pumpStarts u i + firstBatchStarts (loop u i) = firstBatchStarts (preStage u i)) ∨
    (CycleDone T i.now (loop u i) ∧ (loop u i).batchLiters = 20 ∧
      batchCompleted u i = some 20 ∧ pumpStarts u i = firstBatchStarts (preStage u i)) := by
  obtain ⟨hM, hd0, hph⟩ := h
  have hM2 := fillStage_cycleM T _ i hM
  have p1 := pumpStage_cycleM T _ i hM2 ho
  have e : loop u i = pumpStage (fillStage (preStage u i) i) i := by
    unfold loop phaseStage
    rcases p1 with p | p
    · exact cooldownStage_off _ i p.2.2.1
    · apply cooldownStage_dwell
      rw [p.2.2.2.2.2.2, subU32_self]
      norm_num
  have hoh : ¬ i.moisture = HIGH := by rw [ho]; decide
  rw [e]
  unfold pumpStarts batchCompleted
  generalize preStage u i = w at hM hd0 hph hs hM2 p1
  -- the fill block
  have hfill : (fillStage w i = w ∧ ¬ fillExits w i ∧ w.pumpRunning = true ∧
        w.batchLiters = 20) ∨
      (w.fillingMix = true ∧ ¬ fillExits w i ∧ (fillStage w i).fillingMix = true ∧
        (fillStage w i).pumpRunning = false ∧ (fillStage w i).deliveredLiters = 0) ∨
      (w.fillingMix = true ∧ fillExits w i ∧ (fillStage w i).pumpRunning = true ∧
        (fillStage w i).fillingMix = false ∧
        (fillStage w i).batchLiters = 20 ∧ (fillStage w i).deliveredLiters = 0) := by
    rcases fillStage_cases w i with ⟨hf, e1⟩ | ⟨hf, ht, hm, e1⟩ | ⟨hf, hx, e1⟩
    · left
      have hp : w.pumpRunning = true ∧ w.batchLiters = 20 := by
        rcases hph with hc | hc
        · rw [hf] at hc
          exact Bool.noConfusion hc
        · exact hc
      refine ⟨e1, ?_, hp.1, hp.2⟩
      rintro ⟨hc, _⟩
      rw [hf] at hc
      exact Bool.noConfusion hc
    · right
      left
      have hpr : w.pumpRunning = false := by
        have := hM.2.2.2.2.2.2
        rw [hf] at this
        cases hp : w.pumpRunning
        · rfl
        · rw [hp] at this
          exact Bool.noConfusion this
      refine ⟨hf, ?_, ?_, ?_, ?_⟩
      · rintro ⟨_, hc | hc⟩
        · exact absurd ht (not_lt.mpr hc)
        · rw [hm] at hc
          exact absurd hc (by decide)
      · rw [e1, fillShow_eq]
        exact hf
      · rw [e1, fillShow_eq]
        exact hpr
      · rw [e1, fillShow_eq]
        exact hd0
    · right
      right
      have hm := hs ⟨hf, hx⟩
      rw [e1, startPumpingDrone_eq, showProgress_eq, stopFillingMix_eq, fillShow_eq]
      refine ⟨hf, ⟨hf, hx⟩, rfl, rfl, ?_, hd0⟩
      show (if i.mixMoisture = HIGH then MIX_TANK_CAPACITY else w.batchLiters) = 20
      rw [if_pos hm]
      rfl
  -- the pump block on a station that pumps a batch of 20 with nothing delivered
  have hpump : ∀ x : Unit, InCycleM T x → x.pumpRunning = true → x.batchLiters = 20 →
      x.deliveredLiters = 0 →
      (FirstBatch T (pumpStage x i) ∧ ¬ pumpCompletes x i ∧
        (pumpStage x i).fillingMix = false) ∨
      (CycleDone T i.now (pumpStage x i) ∧ (pumpStage x i).batchLiters = 20 ∧
        pumpCompletes x i) := by
    intro x hx hp hb hd
    rcases pumpStage_cases x i with ⟨hc, _⟩ | ⟨_, ht, _, e1⟩ | ⟨_, hc, _⟩ | ⟨_, ht, _, e1⟩
    · rw [hp] at hc
      exact Bool.noConfusion hc
    · left
      have hf : x.fillingMix = false := by
        rw [hx.2.2.2.2.2.2, hp]
        rfl
      rw [e1, pumpShow_eq]
      refine ⟨⟨hx, hd, Or.inr ⟨hp, hb⟩⟩, ?_, hf⟩
      rintro ⟨_, hc | hc, _⟩
      · exact absurd ht (not_lt.mpr hc)
      · exact absurd hc hoh
    · exact absurd hc hoh
    · right
      have hf : x.fillingMix = false := by
        rw [hx.2.2.2.2.2.2, hp]
        rfl
      have hdone : (pumpShow x i).deliveredLiters + (pumpShow x i).batchLiters
          ≥ (pumpShow x i).targetLiters := by
        rw [pumpShow_eq]
        simp only
        rw [hd, hb, hx.1]
        omega
      rw [e1, pumpFinish_done _ _ ho hdone, pumpShow_eq]
      exact ⟨⟨hx.1, hx.2.1, rfl, hx.1, hf, rfl, rfl⟩, hb, hp, Or.inl ht, ho⟩
  rcases hfill with ⟨e1, hne, hp, hb⟩ | ⟨hf, hne, hf2, hp2, hd2⟩ | ⟨hf, hex, hp2, hf2, hb2, hd2⟩
  · have hwf : w.fillingMix = false := by
      rw [hM.2.2.2.2.2.2, hp]
      rfl
    rw [e1]
    rcases hpump w hM hp hb hd0 with ⟨a1, a2, a3⟩ | ⟨a1, a2, a3⟩
    · left
      refine ⟨a1, by rw [if_neg a2], ?_⟩
      rw [if_neg hne]
      unfold firstBatchStarts
      rw [a3, hwf]
      rfl
    · right
      refine ⟨a1, a2, by rw [if_pos a3, hb], ?_⟩
      rw [if_neg hne]
      unfold firstBatchStarts
      rw [hwf]
      rfl
  · left
    have e2 : pumpStage (fillStage w i) i = fillStage w i := pumpStage_off _ i hp2
    have hnc : ¬ pumpCompletes (fillStage w i) i := by
      rintro ⟨hc, _⟩
      rw [hp2] at hc
      exact Bool.noConfusion hc
    rw [e2]
    refine ⟨⟨hM2, hd2, Or.inl hf2⟩, by rw [if_neg hnc], ?_⟩
    rw [if_neg hne]
    unfold firstBatchStarts
    rw [hf2, hf]
    rfl
  · rcases hpump (fillStage w i) hM2 hp2 hb2 hd2 with ⟨a1, a2, a3⟩ | ⟨a1, a2, a3⟩
    · left
      refine ⟨a1, by rw [if_neg a2], ?_⟩
      rw [if_pos hex]
      unfold firstBatchStarts
      rw [a3, hf]
      rfl
    · right
      refine ⟨a1, a2, by rw [if_pos a3, hb2], ?_⟩
      rw [if_pos hex]
      unfold firstBatchStarts
      rw [hf]
      rfl

theorem preStage_FirstBatch (T : Int) (u : Unit) (i : Inputs) (h : FirstBatch T u) :
    FirstBatch T (preStage u i) ∧ firstBatchStarts (preStage u i) = firstBatchStarts u := by
  have e := preStage_busy u i (not_idle_of_not_ready h.1.2.1)
  rw [e]
  exact ⟨h, rfl⟩

theorem first_batch_run (T : Int) (hT : T ≤ 20) (is : List Inputs) :
    ∀ (u : Unit) (i : Inputs) (v : Unit), FirstBatch T (preStage u i) →
      (∀ j ∈ i :: is, j.moisture = LOW) → sensorEndsFill u (i :: is) →
      atCooldown u (i :: is) = some v →
      cycleStarts u (i :: is) = firstBatchStarts (preStage u i) ∧
      cycleBatches u (i :: is) = [20] ∧ v.batchLiters = 20 ∧ v.deliveredLiters = T := by
  induction is with
  | nil =>
    intro u i v h hq hs hc
    rw [atCooldown] at hc
    rcases first_batch_pass T u i hT h (hq i (List.mem_cons_self i [])) hs.1 with
      ⟨a1, _, _⟩ | ⟨a1, a2, a3, a4⟩
    · rw [if_neg (by rw [a1.1.2.2.1]; decide)] at hc
      exact Option.noConfusion hc
    · rw [if_pos a1.2.2.1] at hc
      have hv : loop u i = v := Option.some.inj hc
      rw [cycleStarts, cycleBatches]
      simp only [a1.2.2.1, if_true, a3, a4, Nat.add_zero, List.append_nil]
      rw [← hv]
      exact ⟨trivial, rfl, a2, a1.2.2.2.1⟩
  | cons j js ih =>
    intro u i v h hq hs hc
    rw [atCooldown] at hc
    rcases first_batch_pass T u i hT h (hq i (List.mem_cons_self i _)) hs.1 with
      ⟨a1, a2, a3⟩ | ⟨a1, a2, a3, a4⟩
    · have hw := a1.1.2.2.1
      rw [if_neg (by rw [hw]; decide)] at hc
      obtain ⟨b1, b2⟩ := preStage_FirstBatch T (loop u i) j a1
      obtain ⟨r1, r2, r3, r4⟩ := ih (loop u i) j v b1
        (fun k hk => hq k (List.mem_cons_of_mem i hk)) (hs.2 hw) hc
      rw [cycleStarts, cycleBatches]
      simp only [hw, Bool.false_eq_true, if_false, a2, r1, r2, b2]
      exact ⟨a3, rfl, r3, r4⟩
    · rw [if_pos a1.2.2.1] at hc
      have hv : loop u i = v := Option.some.inj hc
      rw [cycleStarts, cycleBatches]
      simp only [a1.2.2.1, if_true, a3, a4, Nat.add_zero, List.append_nil]
      rw [← hv]
      exact ⟨trivial, rfl, a2, a1.2.2.2.1⟩

theorem first_pass_FirstBatch (T : Int) (u : Unit) (i : Inputs) (hT : 1 ≤ T) (hu : Idle u)
    (hw : u.waitBeforeReset = false) (hb : Pressed i) (hm : map i.potValue 0 4095 1 100 = T) :
    FirstBatch T (preStage u i) ∧ firstBatchStarts (preStage u i) = 1 := by
  obtain ⟨f1, f2, _⟩ := first_pass T u i hT hu hw hb hm
  have hf : (preStage u i).fillingMix = true := by
    rw [preStage_idle_pressed u i hu hb, startFillingMix_go _ _ (by
      apply min_capacity_pos
      simp only
      omega), showProgress_eq]
  refine ⟨⟨InCycle_InCycleM f1, f2, Or.inl hf⟩, ?_⟩
  unfold firstBatchStarts
  rw [hf]
  rfl

/-- C12: in a cycle started from idle with the dial at `T` liters (`1 ≤ T ≤ 100`) and
run through passes in which the drone-tank sensor is never asserted, the mix-tank
sensor being free to assert in any pass: `deliveredLiters` is at most `T` at the end
of every pass up to the one that enters cooldown, and equals `T` (with
`targetLiters = T`) when cooldown is entered; a fill block that sees the mix-tank
sensor asserted sets `batchLiters` to 20 whatever remains to be delivered and starts
the pump phase; a run into cooldown exists. For `T = 10`, every such run in which the
fill phase is ended by the mix-tank sensor has one pump phase and the single batch
20, and enters cooldown with `batchLiters = 20` and `deliveredLiters = 10`; the
scenario with the sensor tripping at 50 ms is such a run. -/
theorem mix_overflow_still_meets_target (T : Int) (hT1 : 1 ≤ T) (_hT2 : T ≤ 100) :
    (∀ (u : Unit) (i : Inputs) (is : List Inputs),
      Idle u → u.waitBeforeReset = false → Pressed i → map i.potValue 0 4095 1 100 = T →
      (∀ j ∈ i :: is, j.moisture = LOW) →
      cycleAll (fun s => s.deliveredLiters ≤ T) u (i :: is) ∧
      ∀ v : Unit, atCooldown u (i :: is) = some v →
        v.deliveredLiters = T ∧ v.targetLiters = T ∧ v.waitBeforeReset = true) ∧
    (∀ (s : Unit) (i : Inputs), s.fillingMix = true → i.mixMoisture = HIGH →
      (fillStage (preStage s i) i).batchLiters = 20 ∧
      (fillStage (preStage s i) i).fillingMix = false ∧
      (fillStage (preStage s i) i).pumpRunning = true ∧
      (fillStage (preStage s i) i).deliveredLiters = s.deliveredLiters) ∧
    (∀ (u : Unit) (i : Inputs),
      Idle u → u.waitBeforeReset = false → Pressed i → map i.potValue 0 4095 1 100 = T →
      NoOverflow i →
      ∃ is : List Inputs, (∀ j ∈ is, j.moisture = LOW) ∧
        (atCooldown u (i :: is)).isSome = true) ∧
    (∀ (u v : Unit) (i : Inputs) (is : List Inputs),
      Idle u → u.waitBeforeReset = false → Pressed i → map i.potValue 0 4095 1 100 = 10 →
      (∀ j ∈ i :: is, j.moisture = LOW) → sensorEndsFill u (i :: is) →
      atCooldown u (i :: is) = some v →
      cycleStarts u (i :: is) = 1 ∧ cycleBatches u (i :: is) = [20] ∧
      v.batchLiters = 20 ∧ v.deliveredLiters = 10) ∧
    ((∀ j ∈ mixFullRun, j.moisture = LOW) ∧ sensorEndsFill setupUnitIO mixFullRun ∧
      (run setupUnitIO (mixFullRun.take 1)).batchLiters = 10 ∧
      (run setupUnitIO (mixFullRun.take 2)).batchLiters = 20 ∧
      (run setupUnitIO (mixFullRun.take 2)).pumpRunning = true ∧
      (atCooldown setupUnitIO mixFullRun).map (fun v => v.deliveredLiters) = some 10 ∧
      (atCooldown setupUnitIO mixFullRun).map (fun v => v.targetLiters) = some 10 ∧
      (atCooldown setupUnitIO mixFullRun).map (fun v => v.batchLiters) = some 20 ∧
      cycleBatches setupUnitIO mixFullRun = [20] ∧
      cycleStarts setupUnitIO mixFullRun = 1) := by
  refine ⟨?_, fillStage_forced_batch, ?_, ?_, ?_⟩
  · intro u i is hu hw hb hm hq
    obtain ⟨f1, _, _⟩ := first_pass T u i hT1 hu hw hb hm
    obtain ⟨r1, r2⟩ := cycleM_run T is u i (InCycle_InCycleM f1) hq
    refine ⟨cycleAll_mono (fun s hs => hs.2.2) _ u r1, ?_⟩
    intro v hv
    have d := r2 v hv
    exact ⟨d.2.2.2.1, d.1, d.2.2.1⟩
  · intro u i hu hw hb hm hq
    obtain ⟨is, h1, h2⟩ := cycle_completes T u i hT1 hu hw hb hm hq
    exact ⟨is, fun j hj => (h1 j hj).2, h2⟩
  · intro u v i is hu hw hb hm hq hs hc
    obtain ⟨g1, g2⟩ := first_pass_FirstBatch 10 u i (by norm_num) hu hw hb hm
    obtain ⟨r1, r2, r3, r4⟩ := first_batch_run 10 (by norm_num) is u i v g1 hq hs hc
    rw [g2] at r1
    exact ⟨r1, r2, r3, r4⟩
  · refine ⟨by decide, ?_, by decide⟩
    unfold mixFullRun
    simp only [sensorEndsFill]
    decide

/-- C12, witness: the 10-liter scenario, run from the initial station, never has
more than 10 liters delivered, and its single batch is 20. -/
theorem mix_overflow_still_meets_target_witness :
    cycleAll (fun s => s.deliveredLiters ≤ 10) setupUnitIO mixFullRun ∧
    cycleBatches setupUnitIO mixFullRun = [20] := by
  have h := mix_overflow_still_meets_target 10 (by norm_num) (by norm_num)
  have hs : sensorEndsFill setupUnitIO mixFullRun := h.2.2.2.2.2.1
  have hc : atCooldown setupUnitIO mixFullRun = some (run setupUnitIO mixFullRun) := rfl
  exact ⟨(h.1 setupUnitIO (quietPass 0 373 LOW) (mixFullRun.tail) (by decide) rfl (by decide)
      (by decide) (by decide)).1,
    (h.2.2.2.1 setupUnitIO (run setupUnitIO mixFullRun) (quietPass 0 373 LOW)
      (mixFullRun.tail) (by decide) rfl (by decide) (by decide) (by decide) hs hc).2.1⟩

/-- C21: the target is frozen for the duration of a cycle. For every station that is
not idle at the start of a pass (`fillingMix` or `pumpRunning` set, or `readyToStart`
clear) and for every reading of the pass, whatever the potentiometer shows, the pass
of `loop` leaves `targetLiters` unchanged. -/
theorem target_frozen_during_cycle (s : Unit) (i : Inputs)
    (hs : s.fillingMix = true ∨ s.pumpRunning = true ∨ s.readyToStart = false) :
    (loop s i).targetLiters = s.targetLiters := by
  have hn : ¬ Idle s := by
    apply not_idle_of_busy
    rcases hs with h | h | h
    · exact Or.inr (Or.inl h)
    · exact Or.inr (Or.inr h)
    · exact Or.inl h
  unfold loop
  rw [phaseStage_targetLiters, preStage_busy s i hn]

/-- C21, witness: while the one-liter cycle pumps, a pass with the dial turned to
its top reading 4095 keeps the target at 1. -/
theorem target_frozen_during_cycle_witness :
    pumpingStation.pumpRunning = true ∧ pumpingStation.targetLiters = 1 ∧
      (loop pumpingStation (quietPass 400 4095 LOW)).targetLiters =
        pumpingStation.targetLiters := by
  have hp : pumpingStation.pumpRunning = true := by decide
  have ht : pumpingStation.targetLiters = 1 := by decide
  exact ⟨hp, ht,
    target_frozen_during_cycle pumpingStation (quietPass 400 4095 LOW) (Or.inr (Or.inl hp))⟩

end Vikhr
